import Mathlib

/-!
# Trixel Management Service — privacy manager and privatizer hierarchy

Shallow embedding of the privatizer core of the Trixel Management Service
(`src/privatizer/privatizer.py`, `src/privatizer/manager.py`) together with
theorems settling the frozen claims about it.

Modelling conventions:
* Python `dict`s are embedded as association lists (`List (K × V)`) with
  python semantics: assignment replaces the value in place when the key is
  present and appends otherwise (preserving insertion order, which is the
  iteration order of a python dict); deletion filters the key out.
* Python `set`s of sensors are embedded as duplicate-free lists; iteration
  order over a python set is implementation defined, the embedding fixes the
  insertion order as one admissible order.
* UUIDs and trixel ids are embedded as `Nat`; measurement values
  (`float | None`) as `Option Int` — no claim settled here depends on real
  arithmetic on measurement values, only on the `None`/known distinction.
* `async` plays no semantic role inside a single operation (the code awaits
  only its own helpers); operations are embedded as pure state transformers.
* One measurement type is modelled; the manager treats types independently
  (`_privatizers[type]` are disjoint maps and the sweep runs types in
  parallel without interaction).
-/

/-- Unique sensor id: measurement-station uuid plus sensor index
(`privatizer/schema.py`, used as a structural-equality map key).
Modelled from the spec: `UniqueSensorId` — pair (ms_uuid, sensor_index),
equality structural; the defining file `src/privatizer/schema.py` is not in
the source tree, only its users. -/
structure UniqueSensorId where
  ms_uuid : Nat
  sensor_id : Nat
deriving DecidableEq, Repr

/-- Per-tick output of a privatizer.
Modelled from the spec: `TrixelUpdate{changed, value, ms_count, sensor_count}`
(§4.2 step 8); the defining file `src/privatizer/schema.py` is not in the
source tree, only its users. -/
structure TrixelUpdate where
  changed : Bool
  value : Option Int
  measurement_station_count : Nat
  sensor_count : Nat
deriving DecidableEq, Repr

/-- Level-change recommendation returned to the client
(`measurement_station/schema.py`, `TrixelLevelChange`). -/
inductive TrixelLevelChange where
  | KEEP
  | INCREASE
  | DECREASE
deriving DecidableEq, Repr

/-- A single measurement (`measurement_station/schema.py`, `Measurement`);
the base privatizer's `new_value` ignores it, so only the fields exist. -/
structure Measurement where
  timestamp : Nat
  sensor_id : Nat
  value : Option Int
deriving DecidableEq, Repr

/-- Global configuration slice used by the privatizer core
(`config_schema.py`: `max_level`). -/
structure Config where
  max_level : Nat
deriving DecidableEq, Repr

namespace AList0

variable {K V : Type} [DecidableEq K]

/-- `d.get(k)` on a python dict (the binding is unique in a python dict). -/
def lookupA (m : List (K × V)) (k : K) : Option V :=
  match m with
  | [] => none
  | kv :: rest => if kv.1 = k then some kv.2 else lookupA rest k

/-- `k in d` on a python dict. -/
def containsA (m : List (K × V)) (k : K) : Bool :=
  (lookupA m k).isSome

/-- `d[k] = v` on a python dict: replace the binding in place if present,
else append (python dicts keep insertion order). -/
def insertA (m : List (K × V)) (k : K) (v : V) : List (K × V) :=
  match m with
  | [] => [(k, v)]
  | kv :: rest => if kv.1 = k then (k, v) :: rest else kv :: insertA rest k v

/-- `del d[k]` on a python dict (no-op when absent, matching the guarded
deletions in the source). -/
def eraseA (m : List (K × V)) (k : K) : List (K × V) :=
  m.filter (fun kv => ¬ kv.1 = k)

end AList0

namespace PySet

variable {A : Type} [DecidableEq A]

/-- `s.add(x)` on a python set (insertion-ordered model). -/
def insertS (s : List A) (x : A) : List A :=
  if x ∈ s then s else s ++ [x]

/-- `s.remove(x)` / discard on a python set. -/
def removeS (s : List A) (x : A) : List A :=
  s.filter (fun y => ¬ y = x)

/-- Deduplicate preserving first-occurrence order: the list of elements a
python `set` accumulates when fed the input in order. -/
def dedup (s : List A) : List A :=
  s.foldl insertS []

end PySet

open AList0 PySet

namespace HTMx

/-- Division chain of `HTM.get_level`, structurally recursive on a fuel
bound; each step divides the id by 4, so any fuel of at least `t` steps is
enough to reach the root range. -/
def levelAux : Nat → Nat → Nat
  | 0, _ => 0
  | fuel + 1, t => if t < 16 then 0 else 1 + levelAux fuel (t / 4)

/-- `HTM.get_level`: level-0 trixels are the eight roots `8..15` (ids gain two
bits per level, so the parent of `t` is `t / 4`). -/
def level (t : Nat) : Nat := levelAux t t

/-- `HTM.parent` (only queried at level > 0). -/
def parent (t : Nat) : Nat := t / 4

/-- `HTM.children`: the four children `4t .. 4t+3`. -/
def children (t : Nat) : List Nat := [4 * t, 4 * t + 1, 4 * t + 2, 4 * t + 3]

end HTMx

/-- State of one `Privatizer` instance (`privatizer/privatizer.py`), the
fields of the base class.  `parent` holds the trixel id of
`_parent_privatizer` (resolved through the manager's table, which owns all
instances); `children` is `None` exactly at `max_level` (line 147). -/
structure PrivState where
  id : Nat
  level : Nat
  parent : Option Nat
  children : Option (List Nat)
  sensors : List UniqueSensorId
  shadow_map : List (UniqueSensorId × Bool)
  evaluation_map : List (UniqueSensorId × Bool)
  contributing_ms_count : Nat
  contributing_sensor_count : Nat
  tls_ms_count : Option Nat
  last_update : Option TrixelUpdate
  stale : Bool
deriving DecidableEq, Repr

namespace PrivState

/-- `Privatizer.__init__` (the identity fields; sensor containers empty,
counters at their class defaults). -/
def mk0 (cfg : Config) (t : Nat) : PrivState :=
  { id := t
    level := HTMx.level t
    parent := if HTMx.level t > 0 then some (HTMx.parent t) else none
    children := if HTMx.level t < cfg.max_level then some (HTMx.children t) else none
    sensors := []
    shadow_map := []
    evaluation_map := []
    contributing_ms_count := 0
    contributing_sensor_count := 0
    tls_ms_count := none
    last_update := none
    stale := false }

/-- `Privatizer.sensor_in_shadow_mode`: the stored flag, defaulting to
`True` when the sensor is unknown. -/
def sensor_in_shadow_mode (p : PrivState) (s : UniqueSensorId) : Bool :=
  match lookupA p.shadow_map s with
  | some b => b
  | none => true

/-- `Privatizer.add_sensor`: add to the sensor set, initialize the shadow
flag to `True` only when absent, and overwrite the evaluation flag. -/
def add_sensor (p : PrivState) (s : UniqueSensorId) (should_evaluate : Bool) : PrivState :=
  { p with
    sensors := insertS p.sensors s
    shadow_map := if containsA p.shadow_map s then p.shadow_map
                  else p.shadow_map ++ [(s, true)]
    evaluation_map := insertA p.evaluation_map s should_evaluate }

/-- `Privatizer.remove_sensor` (base class): drop the sensor from the sensor
set and the shadow map (the evaluation map is left untouched by the code). -/
def remove_sensor (p : PrivState) (s : UniqueSensorId) : PrivState :=
  { p with
    sensors := removeS p.sensors s
    shadow_map := eraseA p.shadow_map s }

/-- The `value` property: the value of the last produced update. -/
def value (p : PrivState) : Option Int :=
  match p.last_update with
  | some u => u.value
  | none => none

end PrivState

namespace KSat

/-- `shadow_k_satisfiers.setdefault(k, 0); shadow_k_satisfiers[k] += 1`. -/
def bump (d : List (Nat × Nat)) (k : Nat) : List (Nat × Nat) :=
  match lookupA d k with
  | some c => insertA d k (c + 1)
  | none => d ++ [(k, 1)]

/-- First loop of the k-satisfier block (`privatizer.py` lines 430-434):
count the shadow-contributing stations per exact k requirement, keys in
first-occurrence order. -/
def buildBuckets (kReq : Nat → Nat) (stations : List Nat) : List (Nat × Nat) :=
  stations.foldl (fun d m => bump d (kReq m)) []

/-- Total of the current bucket values at keys strictly below `k`. -/
def sumSmaller (d : List (Nat × Nat)) (k : Nat) : Nat :=
  (d.filter (fun kv => kv.1 < k)).foldl (fun a kv => a + kv.2) 0

/-- Second loop (`privatizer.py` lines 436-440): for every key `k` in
insertion order, add the *current* values of all strictly smaller keys to
bucket `k`.  Because earlier outer iterations may already have inflated a
smaller key's bucket, later keys can absorb those inflated values. -/
def cascade (d0 : List (Nat × Nat)) : List (Nat × Nat) :=
  (d0.map Prod.fst).foldl
    (fun d k => insertA d k ((lookupA d k).getD 0 + sumSmaller d k)) d0

/-- Third loop (`privatizer.py` lines 442-447): the largest key whose bucket
plus the child measurement-station count reaches the key. -/
def shadow_max_k (d : List (Nat × Nat)) (child_ms : Nat) : Nat :=
  d.foldl (fun mk kv => if kv.2 + child_ms ≥ kv.1 ∧ kv.1 ≥ mk then kv.1 else mk) 0

/-- The satisfier count as the specification words it: the number of distinct
contributing stations whose recorded k requirement is at most `k`. -/
def specSatisfierCount (kReq : Nat → Nat) (stations : List Nat) (k : Nat) : Nat :=
  (stations.filter (fun m => kReq m ≤ k)).length

/-- `max_k_satisfiable` as the specification words it: the largest observed
`k` whose spec-side satisfier count plus the child count reaches `k`. -/
def specMaxK (kReq : Nat → Nat) (stations : List Nat) (child_ms : Nat) : Nat :=
  ((dedup (stations.map kReq)).filter
      (fun k => specSatisfierCount kReq stations k + child_ms ≥ k)).foldl max 0

end KSat

open KSat

/-- Inputs of one `Privatizer.process` call that the base class delegates to
the policy hooks or to the surrounding manager: the outcome of
`evaluate_sensor_quality`, the lifecycle `contributing` flags written by
sibling privatizers, the per-station k requirements (`get_k_requirement`),
the descendants' contribution totals (`get_total_contributing_ms_count()`
minus the privatizer's own count, and likewise for sensors), the
`can_subdivide` policy answer, and the `get_value` result. -/
structure ProcEnv where
  evalResult : UniqueSensorId → Bool
  lifecycleContributing : UniqueSensorId → Bool
  kReq : Nat → Nat
  childMsCount : Nat
  childSensorCount : Nat
  canSubdivide : Bool
  getValue : Option Int

/-- The `contributing_sensor_set` loop of `Privatizer.process` (lines
408-419): a sensor contributes when it passes `evaluate_sensor_quality` if
this privatizer should evaluate it, and otherwise when its lifecycle exists
and carries `contributing`.  `__evaluation_map[sensor]` is a plain indexing
in the source; an absent key (impossible after `add_sensor`) is read here
as the lifecycle branch. -/
def Privatizer.contributingSet (env : ProcEnv) (p : PrivState) : List UniqueSensorId :=
  p.sensors.filter (fun s =>
    match lookupA p.evaluation_map s with
    | some true => env.evalResult s
    | _ => env.lifecycleContributing s)

/-- `Privatizer.process` (`privatizer.py` lines 382-500) for the base
privatizer (no-op `pre_processing`/`post_processing`/`new_value`).
Returns the updated state, the produced `TrixelUpdate`, the `update_tls`
flag, and the sensors handed to `_parent_privatizer.remove_sensor` during
the unshadow loop (applied by the caller to the parent's state). -/
def Privatizer.process (env : ProcEnv) (p : PrivState) :
    PrivState × TrixelUpdate × Bool × List UniqueSensorId :=
  let C := Privatizer.contributingSet env p
  let shadow_ms := dedup (C.map (fun s => s.ms_uuid))
  let child_ms := env.childMsCount
  let step :=
    if env.canSubdivide then
      let buckets := cascade (buildBuckets env.kReq shadow_ms)
      let maxk := shadow_max_k buckets child_ms
      p.sensors.foldl
        (fun acc s =>
          if env.kReq s.ms_uuid ≤ maxk then
            (insertA acc.1 s false,
             acc.2 ++ (if p.parent.isSome then [s] else []))
          else (insertA acc.1 s true, acc.2))
        (p.shadow_map, ([] : List UniqueSensorId))
    else (p.shadow_map, [])
  let shadowMap := step.1
  let removals := step.2
  let realC := C.filter (fun s =>
    match lookupA shadowMap s with
    | some b => !b
    | none => false)
  let ms_count := (dedup (realC.map (fun s => s.ms_uuid))).length
  let sensor_count := realC.length
  let new_ms := ms_count + child_ms
  let staleFlag := if 0 < new_ms ∨ 0 < p.sensors.length then false else true
  let new_sc := sensor_count + env.childSensorCount
  let update_tls : Bool :=
    match p.tls_ms_count with
    | some tv => if new_ms ≠ tv then true else false
    | none => true
  let v := env.getValue
  let changed : Bool :=
    match p.last_update with
    | some u =>
      if u.value ≠ v ∨ u.measurement_station_count ≠ new_ms ∨ u.sensor_count ≠ new_sc
      then true else false
    | none => false
  let u : TrixelUpdate :=
    { changed := changed, value := v, measurement_station_count := new_ms,
      sensor_count := new_sc }
  ({ p with
      shadow_map := shadowMap
      contributing_ms_count := ms_count
      contributing_sensor_count := sensor_count
      stale := staleFlag
      last_update := some u },
   u, update_tls, removals)

/-- State of the `PrivacyManager` (`privatizer/manager.py`) for one
measurement type: the privatizer table (`_privatizers[type]`), the
sensor-to-privatizer map (`_sensor_map`, holding the target privatizer's
trixel id — object references are resolved through the table, which owns
every instance), the per-level trixel lookup (`_level_lookup`) and the
per-station k requirements (`_k_map`). -/
structure ManagerState where
  privatizers : List (Nat × PrivState)
  sensor_map : List (UniqueSensorId × Nat)
  level_lookup : List (Nat × List Nat)
  k_map : List (Nat × Nat)
deriving DecidableEq, Repr

namespace ManagerState

/-- `PrivacyManager.get_privatizer` with `instantiate=True` (lines 77-102):
record the trixel in the level lookup, construct the privatizer — whose
`__init__` recursively instantiates the parent chain up to the root — and
register it.  Structurally recursive on a fuel bound: each recursive step
moves to `t / 4`, so fuel `t + 1` (used by `getPrivatizerI`) is never
exhausted. -/
def getPrivatizerIAux (cfg : Config) : Nat → ManagerState → Nat → ManagerState
  | 0, m, _ => m
  | fuel + 1, m, t =>
    if containsA m.privatizers t then m
    else
      let lvl := HTMx.level t
      let m1 := { m with
        level_lookup := insertA m.level_lookup lvl
          (insertS ((lookupA m.level_lookup lvl).getD []) t) }
      let m2 := if 0 < HTMx.level t then getPrivatizerIAux cfg fuel m1 (HTMx.parent t) else m1
      { m2 with privatizers := insertA m2.privatizers t (PrivState.mk0 cfg t) }

def getPrivatizerI (cfg : Config) (m : ManagerState) (t : Nat) : ManagerState :=
  getPrivatizerIAux cfg (t + 1) m t

/-- `Privatizer.get_total_contributing_ms_count` (lines 224-243): the
privatizer's own count plus, recursively, the counts of every child present
in the manager's table.  Iterating `self._children` when it is `None`
(which is the case exactly at `max_level`) raises a `TypeError` in the
source; that failure is `none` here.  `fuel` bounds the recursion depth; the
code's recursion descends one level per step, so any fuel exceeding the
level range is enough. -/
def totalMs (tbl : List (Nat × PrivState)) : Nat → PrivState → Option Nat
  | 0, _ => none
  | fuel + 1, p =>
    match p.children with
    | none => none
    | some cs =>
      let sub := cs.foldl
        (fun acc c =>
          match acc with
          | none => none
          | some a =>
            match lookupA tbl c with
            | none => some a
            | some cp =>
              match totalMs tbl fuel cp with
              | none => none
              | some v => some (a + v))
        (some 0)
      match sub with
      | none => none
      | some a => some (p.contributing_ms_count + a)

/-- `Privatizer.get_total_contributing_sensor_count` (lines 246-261): same
recursion over sensor counts. -/
def totalSensors (tbl : List (Nat × PrivState)) : Nat → PrivState → Option Nat
  | 0, _ => none
  | fuel + 1, p =>
    match p.children with
    | none => none
    | some cs =>
      let sub := cs.foldl
        (fun acc c =>
          match acc with
          | none => none
          | some a =>
            match lookupA tbl c with
            | none => some a
            | some cp =>
              match totalSensors tbl fuel cp with
              | none => none
              | some v => some (a + v))
        (some 0)
      match sub with
      | none => none
      | some a => some (p.contributing_sensor_count + a)

/-- `PrivacyManager.remove_sensor` (lines 143-158): remove the sensor from
its target privatizer and from that privatizer's parent, then drop the
`sensor_map` entry.  When the referenced privatizer is no longer in the
table the code mutates orphaned objects, which leaves the manager state
untouched apart from the map entry. -/
def removeSensorM (m : ManagerState) (s : UniqueSensorId) : ManagerState :=
  match lookupA m.sensor_map s with
  | none => m
  | some tid =>
    match lookupA m.privatizers tid with
    | none => { m with sensor_map := eraseA m.sensor_map s }
    | some p =>
      let tbl1 := insertA m.privatizers tid (p.remove_sensor s)
      let tbl2 :=
        match p.parent with
        | some pid =>
          match lookupA tbl1 pid with
          | some pp => insertA tbl1 pid (pp.remove_sensor s)
          | none => tbl1
        | none => tbl1
      { m with privatizers := tbl2, sensor_map := eraseA m.sensor_map s }

end ManagerState

/-- Failure modes of `PrivacyManager.contribute`: the two `ValueError`
raises for an out-of-range target level (lines 217-220), and the `TypeError`
raised by `get_total_contributing_ms_count` when it iterates a `None`
children field (a privatizer at `max_level`). -/
inductive CErr where
  | invalidTargetLevel
  | typeFault
deriving DecidableEq, Repr

namespace ManagerState

/-- The two privatizer instantiations of `contribute` (lines 222-227):
create the child privatizer — whose constructor creates the parent chain —
then request the parent (already present). -/
def createPair (cfg : Config) (m : ManagerState) (sub : Nat) : ManagerState :=
  let m1 := getPrivatizerI cfg m sub
  match (lookupA m1.privatizers sub).bind PrivState.parent with
  | some pid => getPrivatizerI cfg m1 pid
  | none => m1

/-- First half of `PrivacyManager.contribute` (lines 216-238) after the
level validation: instantiate the child and parent privatizers, detect a
first contribution, remove the sensor everywhere if it changed its target
trixel, and point `sensor_map` at the child.  Returns the updated state and
the `first_contribution` flag. -/
def contributePrep (cfg : Config) (m : ManagerState) (sub : Nat) (s : UniqueSensorId) :
    ManagerState × Bool :=
  let m2 := createPair cfg m sub
  let first := !containsA m2.sensor_map s
  let m3 :=
    match lookupA m2.sensor_map s with
    | some tid => if tid ≠ sub then removeSensorM m2 s else m2
    | none => m2
  ({ m3 with sensor_map := insertA m3.sensor_map s sub }, first)

/-- `PrivacyManager.contribute` (lines 160-282).  Returns the state as
mutated so far together with the outcome, mirroring python exception
semantics: the level validation raises before any mutation, while the
`TypeError` from the population queries fires after the preparation step
has already changed the state.  The measurement itself is only forwarded to
the base `new_value`, which is a no-op. -/
def contribute (cfg : Config) (m : ManagerState) (sub : Nat) (s : UniqueSensorId)
    (_meas : Measurement) (k : Nat) : ManagerState × Except CErr TrixelLevelChange :=
  let lvl := HTMx.level sub
  if lvl = 0 then (m, .error .invalidTargetLevel)
  else if cfg.max_level < lvl then (m, .error .invalidTargetLevel)
  else
    let prep := contributePrep cfg m sub s
    let m4 := prep.1
    let first := prep.2
    match lookupA m4.privatizers sub with
    | none => (m4, .error .typeFault)
    | some cp =>
      match cp.parent with
      | none => (m4, .error .typeFault)
      | some pid =>
        match lookupA m4.privatizers pid with
        | none => (m4, .error .typeFault)
        | some pp =>
          match totalMs m4.privatizers (cfg.max_level + 2) cp with
          | none => (m4, .error .typeFault)
          | some childTotal =>
            match totalMs m4.privatizers (cfg.max_level + 2) pp with
            | none => (m4, .error .typeFault)
            | some parentTotal =>
              let c2c : Bool := k ≤ childTotal
              let c2pRaw : Bool := k ≤ parentTotal
              let sc := cp.sensor_in_shadow_mode s
              let sp := pp.sensor_in_shadow_mode s
              let isOnlyShadow := sc && sp
              let c2p := c2pRaw && !c2c
              let tbl1 :=
                if (c2c && !sc) || (sc && !sp) then
                  insertA m4.privatizers sub (cp.add_sensor s (!sc || isOnlyShadow))
                else
                  insertA m4.privatizers sub (cp.remove_sensor s)
              let tbl2 :=
                match lookupA tbl1 pid with
                | some pp1 =>
                  if c2p || sp then
                    insertA tbl1 pid (pp1.add_sensor s (!sp || isOnlyShadow))
                  else
                    insertA tbl1 pid (pp1.remove_sensor s)
                | none => tbl1
              let m5 := { m4 with privatizers := tbl2 }
              let dir :=
                if c2c && !sc then TrixelLevelChange.INCREASE
                else if !first && decide (0 < pp.level) && !c2p then TrixelLevelChange.DECREASE
                else TrixelLevelChange.KEEP
              (m5, .ok dir)

end ManagerState

/-- Policy and environment inputs of one sweep level
(`PrivacyManager._process_measurement_type`): the per-trixel policy answers,
the lifecycle flags, the k requirements, and whether the TLS batch publish
succeeds (on `TLSError` the code logs and skips the `tls_ms_count`
updates). -/
structure SweepEnv where
  canSubdivide : Nat → Bool
  getValue : Nat → Option Int
  evalResult : Nat → UniqueSensorId → Bool
  lifecycleContributing : UniqueSensorId → Bool
  kReq : Nat → Nat
  tlsSuccess : Bool

/-- Working data of one level of the sweep: the privatizer table as mutated
so far, the collected `trixel_updates` and `tls_updates`, the
`stale_privatizers` set, and (bookkeeping for specification purposes — the
python keeps these in task-local variables) the post-`process` state of
each privatizer handled in this level. -/
structure LevelAcc where
  tbl : List (Nat × PrivState)
  trixel_updates : List (Nat × TrixelUpdate)
  tls_updates : List (Nat × Nat)
  stale_list : List Nat
  processed : List (Nat × PrivState)
deriving DecidableEq, Repr

namespace ManagerState

/-- The body of `process_trixel` (`manager.py` lines 369-389): run the
privatizer's `process`, apply the parent-side removals it issued, collect
the TLS update, record the observation when it has a value or changed, and
on staleness remember the trixel and synthesize the final unknown update if
the (just recomputed) value is known.  `none` models the `TypeError`
propagating out of `get_total_contributing_ms_count`. -/
def processTrixel (cfg : Config) (env : SweepEnv) (acc : LevelAcc) (t : Nat) :
    Option LevelAcc :=
  match lookupA acc.tbl t with
  | none => some acc
  | some p =>
    match totalMs acc.tbl (cfg.max_level + 2) p,
          totalSensors acc.tbl (cfg.max_level + 2) p with
    | some tms, some tsc =>
      let penv : ProcEnv :=
        { evalResult := env.evalResult t
          lifecycleContributing := env.lifecycleContributing
          kReq := env.kReq
          childMsCount := tms - p.contributing_ms_count
          childSensorCount := tsc - p.contributing_sensor_count
          canSubdivide := env.canSubdivide t
          getValue := env.getValue t }
      let r := Privatizer.process penv p
      let p1 := r.1
      let u := r.2.1
      let utls := r.2.2.1
      let removals := r.2.2.2
      let tbl1 := insertA acc.tbl t p1
      let tbl2 :=
        match p1.parent with
        | some pid =>
          match lookupA tbl1 pid with
          | some pp => insertA tbl1 pid (removals.foldl PrivState.remove_sensor pp)
          | none => tbl1
        | none => tbl1
      let tls1 := if utls then insertA acc.tls_updates t u.measurement_station_count
                  else acc.tls_updates
      let obs1 := if u.value ≠ none ∨ u.changed = true then insertA acc.trixel_updates t u
                  else acc.trixel_updates
      let res :=
        if p1.stale then
          (acc.stale_list ++ [t],
           if p1.value ≠ none then
             insertA obs1 t
               { changed := true, value := none, measurement_station_count := 0,
                 sensor_count := 0 }
           else obs1)
        else (acc.stale_list, obs1)
      some { tbl := tbl2, trixel_updates := res.2, tls_updates := tls1,
             stale_list := res.1, processed := insertA acc.processed t p1 }
    | _, _ => none

/-- One level iteration of `PrivacyManager._process_measurement_type`
(lines 363-403): process every trixel of the level that has a privatizer for
the type, delete the stale privatizers from the table, and — when the TLS
batch publish succeeds — record the published counts in the surviving
privatizers.  Returns the new manager state and the level's collected data
(`trixel_updates` is what `insert_observations` receives).  `none` models a
propagated `TypeError`. -/
def processLevel (cfg : Config) (env : SweepEnv) (m : ManagerState) (level : Nat) :
    Option (ManagerState × LevelAcc) :=
  let trixels := ((lookupA m.level_lookup level).getD []).filter
    (fun t => containsA m.privatizers t)
  let start : LevelAcc :=
    { tbl := m.privatizers, trixel_updates := [], tls_updates := [],
      stale_list := [], processed := [] }
  match trixels.foldl
      (fun acc t =>
        match acc with
        | none => none
        | some a => processTrixel cfg env a t)
      (some start) with
  | none => none
  | some acc =>
    let tbl3 := acc.stale_list.foldl eraseA acc.tbl
    let tbl4 :=
      if env.tlsSuccess then
        acc.tls_updates.foldl
          (fun tb kv =>
            match lookupA tb kv.1 with
            | some p => insertA tb kv.1 { p with tls_ms_count := some kv.2 }
            | none => tb)
          tbl3
      else tbl3
    some ({ m with privatizers := tbl4 }, { acc with tbl := tbl4 })

end ManagerState

/-- The routing hint exactly as the specification words it (§4.3):
`INCREASE` when the child is populated and the sensor is not shadow there;
otherwise `DECREASE` when this is not a first contribution, the parent's
level is positive and the parent is not populated (populated meaning its
total reaches `k` while the child's does not); otherwise `KEEP`. -/
def specHint (child_populated shadow_c first parent_level_pos parent_populated : Bool) :
    TrixelLevelChange :=
  if child_populated && !shadow_c then .INCREASE
  else if !first && parent_level_pos && !parent_populated then .DECREASE
  else .KEEP

/-- Shadow state of a sensor as seen through the manager's table: the
privatizer's `sensor_in_shadow_mode` when the trixel has one, else the
default `True` a fresh privatizer would report. -/
def ManagerState.shadowAt (m : ManagerState) (t : Nat) (s : UniqueSensorId) : Bool :=
  match lookupA m.privatizers t with
  | some p => p.sensor_in_shadow_mode s
  | none => true

/-- Every privatizer field except the sensor set and the shadow map — the
frame that sensor removal must not touch. -/
def PrivState.frame (p : PrivState) :=
  (p.id, p.level, p.parent, p.children, p.evaluation_map,
   p.contributing_ms_count, p.contributing_sensor_count,
   p.tls_ms_count, p.last_update, p.stale)

/-- The fields of a privatizer that `get_total_contributing_ms_count`
reads: the children list and the own station count. -/
def PrivState.msCore (p : PrivState) : Option (List Nat) × Nat :=
  (p.children, p.contributing_ms_count)

/-- Two tables that agree, entry by entry, on everything
`get_total_contributing_ms_count` can observe. -/
def tableMsEq (t1 t2 : List (Nat × PrivState)) : Prop :=
  ∀ k, (lookupA t1 k).map PrivState.msCore = (lookupA t2 k).map PrivState.msCore

/-- Concrete inputs for the settled claims. -/
def kReqX : Nat → Nat := fun u => if u ≤ 3 then 6 else if u = 4 then 7 else 8

def sensX (i : Nat) : UniqueSensorId := ⟨i, 0⟩

/-- A level-1 privatizer holding five evaluated sensors of five distinct
stations whose k requirements are 6, 6, 6, 7 and 8 (in sensor order). -/
def pX : PrivState :=
  { id := 32, level := 1, parent := some 8, children := some [128, 129, 130, 131],
    sensors := [sensX 1, sensX 2, sensX 3, sensX 4, sensX 5],
    shadow_map := [],
    evaluation_map :=
      [(sensX 1, true), (sensX 2, true), (sensX 3, true), (sensX 4, true), (sensX 5, true)],
    contributing_ms_count := 0, contributing_sensor_count := 0,
    tls_ms_count := none, last_update := none, stale := false }

def envX : ProcEnv :=
  { evalResult := fun _ => true, lifecycleContributing := fun _ => false,
    kReq := kReqX, childMsCount := 0, childSensorCount := 0,
    canSubdivide := true, getValue := none }

def cfg3 : Config := { max_level := 3 }

def cfg2 : Config := { max_level := 2 }

def sX0 : UniqueSensorId := ⟨7, 0⟩

def measX : Measurement := { timestamp := 100, sensor_id := 0, value := some 20 }

def mEmpty : ManagerState :=
  { privatizers := [], sensor_map := [], level_lookup := [], k_map := [] }

/-- A stale-to-be level-1 privatizer with a known last value and no
sensors. -/
def pStaleX : PrivState :=
  { id := 32, level := 1, parent := some 8, children := some [128, 129, 130, 131],
    sensors := [], shadow_map := [], evaluation_map := [],
    contributing_ms_count := 0, contributing_sensor_count := 0,
    tls_ms_count := some 0,
    last_update := some { changed := false, value := some 5,
                          measurement_station_count := 0, sensor_count := 0 },
    stale := false }

def mStaleX : ManagerState :=
  { privatizers := [(32, pStaleX)], sensor_map := [],
    level_lookup := [(1, [32])], k_map := [] }

def envSweepX : SweepEnv :=
  { canSubdivide := fun _ => true, getValue := fun _ => some 7,
    evalResult := fun _ _ => true, lifecycleContributing := fun _ => false,
    kReq := fun _ => 3, tlsSuccess := true }

/-- A manager owning a sensor that is known, shadow everywhere and mapped
to trixel 128, as left behind by a first contribution. -/
def mContribX : ManagerState := (ManagerState.contribute cfg3 mEmpty 128 sX0 measX 1).1

/-- Membership of a sensor in the sensor set of the privatizer a table holds
at a trixel — the membership the sensor-map invariant speaks about. -/
def memberAt (tbl : List (Nat × PrivState)) (t : Nat) (s : UniqueSensorId) : Prop :=
  ∃ q, lookupA tbl t = some q ∧ s ∈ q.sensors

namespace AList0

variable {K V : Type} [DecidableEq K]

theorem lookupA_nil (k : K) : lookupA ([] : List (K × V)) k = none := rfl

theorem lookupA_cons (a : K) (b : V) (rest : List (K × V)) (k : K) :
    lookupA ((a, b) :: rest) k = if a = k then some b else lookupA rest k := rfl

theorem insertA_nil (k : K) (v : V) : insertA ([] : List (K × V)) k v = [(k, v)] := rfl

theorem insertA_cons (a : K) (b : V) (rest : List (K × V)) (k : K) (v : V) :
    insertA ((a, b) :: rest) k v =
      if a = k then (k, v) :: rest else (a, b) :: insertA rest k v := rfl

theorem eraseA_nil (k : K) : eraseA ([] : List (K × V)) k = [] := rfl

theorem eraseA_cons (a : K) (b : V) (rest : List (K × V)) (k : K) :
    eraseA ((a, b) :: rest) k =
      if a = k then eraseA rest k else (a, b) :: eraseA rest k := by
  by_cases h : a = k
  · simp [eraseA, List.filter_cons, h]
  · simp [eraseA, List.filter_cons, h]

theorem lookupA_insertA_self (m : List (K × V)) (k : K) (v : V) :
    lookupA (insertA m k v) k = some v := by
  induction m with
  | nil => simp [insertA_nil, lookupA_cons]
  | cons kv rest ih =>
    obtain ⟨a, b⟩ := kv
    rw [insertA_cons]
    by_cases h : a = k
    · simp [h, lookupA_cons]
    · simp [h, lookupA_cons, ih]

theorem lookupA_insertA_ne (m : List (K × V)) (k k' : K) (v : V) (h : k' ≠ k) :
    lookupA (insertA m k v) k' = lookupA m k' := by
  induction m with
  | nil => simp [insertA_nil, lookupA_cons, lookupA_nil, Ne.symm h]
  | cons kv rest ih =>
    obtain ⟨a, b⟩ := kv
    rw [insertA_cons]
    by_cases hk : a = k
    · subst hk
      rw [if_pos rfl, lookupA_cons, lookupA_cons, if_neg (Ne.symm h), if_neg (Ne.symm h)]
    · rw [if_neg hk, lookupA_cons, lookupA_cons]
      by_cases hk' : a = k'
      · simp only [if_pos hk']
      · simp only [if_neg hk', ih]

theorem insertA_of_lookup_eq (m : List (K × V)) (k : K) (v : V)
    (h : lookupA m k = some v) : insertA m k v = m := by
  induction m with
  | nil => simp [lookupA_nil] at h
  | cons kv rest ih =>
    obtain ⟨a, b⟩ := kv
    rw [lookupA_cons] at h
    rw [insertA_cons]
    by_cases hk : a = k
    · rw [if_pos hk] at h
      injection h with hv
      rw [if_pos hk, hk, hv]
    · rw [if_neg hk] at h
      rw [if_neg hk, ih h]

theorem insertA_insertA_self (m : List (K × V)) (k : K) (v : V) :
    insertA (insertA m k v) k v = insertA m k v :=
  insertA_of_lookup_eq _ _ _ (lookupA_insertA_self m k v)

theorem eraseA_of_lookup_none (m : List (K × V)) (k : K)
    (h : lookupA m k = none) : eraseA m k = m := by
  induction m with
  | nil => rfl
  | cons kv rest ih =>
    obtain ⟨a, b⟩ := kv
    rw [lookupA_cons] at h
    by_cases hk : a = k
    · rw [if_pos hk] at h
      exact absurd h (by simp)
    · rw [if_neg hk] at h
      rw [eraseA_cons, if_neg hk, ih h]

theorem lookupA_eraseA_self (m : List (K × V)) (k : K) :
    lookupA (eraseA m k) k = none := by
  induction m with
  | nil => rfl
  | cons kv rest ih =>
    obtain ⟨a, b⟩ := kv
    rw [eraseA_cons]
    by_cases hk : a = k
    · rw [if_pos hk]
      exact ih
    · rw [if_neg hk, lookupA_cons, if_neg hk]
      exact ih

theorem lookupA_eraseA_ne (m : List (K × V)) (k k' : K) (h : k' ≠ k) :
    lookupA (eraseA m k) k' = lookupA m k' := by
  induction m with
  | nil => rfl
  | cons kv rest ih =>
    obtain ⟨a, b⟩ := kv
    rw [eraseA_cons]
    by_cases hk : a = k
    · rw [if_pos hk, lookupA_cons, hk, if_neg (Ne.symm h)]
      exact ih
    · rw [if_neg hk, lookupA_cons, lookupA_cons]
      by_cases hk' : a = k'
      · simp only [if_pos hk']
      · simp only [if_neg hk', ih]

theorem lookupA_append_right (m : List (K × V)) (k : K) (v : V)
    (h : lookupA m k = none) : lookupA (m ++ [(k, v)]) k = some v := by
  induction m with
  | nil => simp [lookupA_cons]
  | cons kv rest ih =>
    obtain ⟨a, b⟩ := kv
    rw [lookupA_cons] at h
    by_cases hk : a = k
    · rw [if_pos hk] at h
      exact absurd h (by simp)
    · rw [if_neg hk] at h
      rw [List.cons_append, lookupA_cons, if_neg hk]
      exact ih h

theorem lookupA_eq_none_of_contains_false (m : List (K × V)) (k : K)
    (h : containsA m k = false) : lookupA m k = none := by
  unfold containsA at h
  cases hl : lookupA m k with
  | none => rfl
  | some v => rw [hl] at h; simp at h

theorem lookupA_append_ne (m : List (K × V)) (k k' : K) (v : V) (h : k' ≠ k) :
    lookupA (m ++ [(k, v)]) k' = lookupA m k' := by
  induction m with
  | nil => simp [lookupA_cons, lookupA_nil, Ne.symm h]
  | cons kv rest ih =>
    obtain ⟨a, b⟩ := kv
    rw [List.cons_append, lookupA_cons, lookupA_cons]
    by_cases hk : a = k'
    · simp only [if_pos hk]
    · simp only [if_neg hk, ih]

end AList0

namespace PySet

variable {A : Type} [DecidableEq A]

theorem insertS_of_mem {s : List A} {x : A} (h : x ∈ s) : insertS s x = s := by
  simp [insertS, h]

theorem mem_insertS_self (s : List A) (x : A) : x ∈ insertS s x := by
  by_cases h : x ∈ s <;> simp [insertS, h]

theorem removeS_cons (y : A) (rest : List A) (x : A) :
    removeS (y :: rest) x = if y = x then removeS rest x else y :: removeS rest x := by
  by_cases h : y = x <;> simp [removeS, List.filter_cons, h]

theorem removeS_of_not_mem {s : List A} {x : A} (h : x ∉ s) : removeS s x = s := by
  induction s with
  | nil => rfl
  | cons y rest ih =>
    simp only [List.mem_cons, not_or] at h
    rw [removeS_cons, if_neg (Ne.symm h.1), ih h.2]

theorem not_mem_removeS (s : List A) (x : A) : x ∉ removeS s x := by
  intro h
  simp [removeS, List.mem_filter] at h

theorem mem_insertS_iff {s : List A} {x y : A} (h : y ≠ x) : y ∈ insertS s x ↔ y ∈ s := by
  by_cases hx : x ∈ s
  · rw [insertS_of_mem hx]
  · simp [insertS, hx, h]

theorem mem_removeS_iff {s : List A} {x y : A} (h : y ≠ x) : y ∈ removeS s x ↔ y ∈ s := by
  simp [removeS, List.mem_filter, h]

end PySet

/-- C2: refuted on the code.  With five contributing stations whose k
requirements are 6, 6, 6, 7 and 8 (keys entering the bucket dict in that
order) and no child contributions, the code's over-satisfier pass computes
a satisfier count of 8 for k = 8 — it re-adds the already inflated k = 7
bucket — whereas only 5 distinct stations have a requirement ≤ 8; it then
reports `max_k_satisfiable = 8`, while no observed k satisfies the
specification's `satisfier_count[k] + child_ms ≥ k` (the spec-side value is
0). -/
theorem claim_C2_counterexample :
    lookupA (cascade (buildBuckets kReqX [1, 2, 3, 4, 5])) 8 = some 8 ∧
    specSatisfierCount kReqX [1, 2, 3, 4, 5] 8 = 5 ∧
    shadow_max_k (cascade (buildBuckets kReqX [1, 2, 3, 4, 5])) 0 = 8 ∧
    specMaxK kReqX [1, 2, 3, 4, 5] 0 = 0 := by
  decide

/-- C1: refuted on the code.  Running `Privatizer.process` (subdivision
allowed, no descendants) on a privatizer holding five contributing sensors
of five distinct stations with k requirements 6, 6, 6, 7, 8 publishes a
measurement-station count of 5, yet every sensor is unshadowed, so the
minimum k requirement among the non-shadow contributing sensors is 6 — the
published count is positive but below that minimum, violating the
k-anonymity invariant. -/
theorem claim_C1_k_anonymity_violated :
    (Privatizer.process envX pX).2.1.measurement_station_count = 5 ∧
    (((Privatizer.contributingSet envX pX).filter
        (fun s => !((Privatizer.process envX pX).1.sensor_in_shadow_mode s))).map
      (fun s => envX.kReq s.ms_uuid)).min? = some 6 ∧
    (Privatizer.process envX pX).2.1.measurement_station_count < 6 := by
  decide

/-- C8: `add_sensor` is idempotent (two identical calls equal one), leaves
the observable shadow state of the sensor unchanged, records the sensor
with an initial shadow flag `true` when it had none, always ends with the
sensor in the sensor set (leaving the set unchanged when it was already a
member), and stores the evaluation flag (a no-op when the same flag was
already stored). -/
theorem claim_C8_add_sensor (p : PrivState) (s : UniqueSensorId) (e : Bool) :
    PrivState.add_sensor (PrivState.add_sensor p s e) s e = PrivState.add_sensor p s e ∧
    (PrivState.add_sensor p s e).sensor_in_shadow_mode s = p.sensor_in_shadow_mode s ∧
    (containsA p.shadow_map s = false →
      lookupA (PrivState.add_sensor p s e).shadow_map s = some true) ∧
    s ∈ (PrivState.add_sensor p s e).sensors ∧
    (s ∈ p.sensors → (PrivState.add_sensor p s e).sensors = p.sensors) ∧
    (lookupA p.evaluation_map s = some e →
      (PrivState.add_sensor p s e).evaluation_map = p.evaluation_map) := by
  have hcont : containsA (if containsA p.shadow_map s then p.shadow_map
      else p.shadow_map ++ [(s, true)]) s = true := by
    by_cases h : containsA p.shadow_map s
    · rwa [if_pos h]
    · rw [if_neg h]
      have hnone : lookupA p.shadow_map s = none :=
        lookupA_eq_none_of_contains_false _ _ (by simpa using h)
      simp [containsA, lookupA_append_right _ _ _ hnone]
  refine ⟨?_, ?_, ?_, ?_, ?_, ?_⟩
  · simp only [PrivState.add_sensor, PrivState.mk.injEq, true_and, and_true]
    refine ⟨insertS_of_mem (mem_insertS_self _ _), ?_, insertA_insertA_self _ _ _⟩
    rw [if_pos hcont]
  · by_cases h : containsA p.shadow_map s
    · simp [PrivState.add_sensor, h, PrivState.sensor_in_shadow_mode]
    · have hnone : lookupA p.shadow_map s = none :=
        lookupA_eq_none_of_contains_false _ _ (by simpa using h)
      simp [PrivState.add_sensor, h, PrivState.sensor_in_shadow_mode,
        lookupA_append_right _ _ _ hnone, hnone]
  · intro h
    have hnone : lookupA p.shadow_map s = none :=
      lookupA_eq_none_of_contains_false _ _ h
    simp [PrivState.add_sensor, h, lookupA_append_right _ _ _ hnone]
  · exact mem_insertS_self p.sensors s
  · intro h
    simp [PrivState.add_sensor, insertS_of_mem h]
  · intro h
    simp [PrivState.add_sensor, insertA_of_lookup_eq _ _ _ h]

/-- Witness for `claim_C8_add_sensor` at a concrete privatizer and sensor. -/
theorem claim_C8_add_sensor_witness :
    PrivState.add_sensor (PrivState.add_sensor pStaleX sX0 true) sX0 true =
        PrivState.add_sensor pStaleX sX0 true ∧
    (PrivState.add_sensor pStaleX sX0 true).sensor_in_shadow_mode sX0 =
        pStaleX.sensor_in_shadow_mode sX0 ∧
    (containsA pStaleX.shadow_map sX0 = false →
      lookupA (PrivState.add_sensor pStaleX sX0 true).shadow_map sX0 = some true) ∧
    sX0 ∈ (PrivState.add_sensor pStaleX sX0 true).sensors ∧
    (sX0 ∈ pStaleX.sensors → (PrivState.add_sensor pStaleX sX0 true).sensors = pStaleX.sensors) ∧
    (lookupA pStaleX.evaluation_map sX0 = some true →
      (PrivState.add_sensor pStaleX sX0 true).evaluation_map = pStaleX.evaluation_map) :=
  claim_C8_add_sensor pStaleX sX0 true

/-- C10: `PrivacyManager.remove_sensor` (and the underlying
`Privatizer.remove_sensor`) only touches sensor sets, shadow maps and the
sensor's `sensor_map` entry: the level lookup, the k map, every other
sensor's map entry, and every privatizer's frame — identity, children,
evaluation map, contribution counts, last published update, `tls_ms_count`
and the stale flag — are unchanged, so the counts published at the previous
tick stay in effect until the next `process` recomputes them. -/
theorem claim_C10_removal_frame (m : ManagerState) (s : UniqueSensorId) :
    (ManagerState.removeSensorM m s).level_lookup = m.level_lookup ∧
    (ManagerState.removeSensorM m s).k_map = m.k_map ∧
    lookupA (ManagerState.removeSensorM m s).sensor_map s = none ∧
    (∀ s', s' ≠ s →
      lookupA (ManagerState.removeSensorM m s).sensor_map s' = lookupA m.sensor_map s') ∧
    (∀ t, (lookupA (ManagerState.removeSensorM m s).privatizers t).map PrivState.frame
        = (lookupA m.privatizers t).map PrivState.frame) ∧
    (∀ p : PrivState, (PrivState.remove_sensor p s).frame = p.frame) := by
  have hframe : ∀ p : PrivState, (PrivState.remove_sensor p s).frame = p.frame :=
    fun p => rfl
  have step : ∀ (tbl : List (Nat × PrivState)) (tid : Nat) (q : PrivState),
      lookupA tbl tid = some q → ∀ t,
      (lookupA (insertA tbl tid (q.remove_sensor s)) t).map PrivState.frame
        = (lookupA tbl t).map PrivState.frame := by
    intro tbl tid q hq t
    by_cases h : t = tid
    · subst h
      rw [lookupA_insertA_self, hq]
      simp [hframe]
    · rw [lookupA_insertA_ne _ _ _ _ h]
  cases hsm : lookupA m.sensor_map s with
  | none =>
    have hmEq : ManagerState.removeSensorM m s = m := by
      simp only [ManagerState.removeSensorM, hsm]
    rw [hmEq]
    exact ⟨rfl, rfl, hsm, fun s' _ => rfl, fun t => rfl, hframe⟩
  | some tid =>
    cases hp : lookupA m.privatizers tid with
    | none =>
      have hmEq : ManagerState.removeSensorM m s
          = { m with sensor_map := eraseA m.sensor_map s } := by
        simp only [ManagerState.removeSensorM, hsm, hp]
      rw [hmEq]
      exact ⟨rfl, rfl, lookupA_eraseA_self _ _,
        fun s' h => lookupA_eraseA_ne _ _ _ h, fun t => rfl, hframe⟩
    | some p =>
      cases hpar : p.parent with
      | none =>
        have hmEq : ManagerState.removeSensorM m s
            = { m with privatizers := insertA m.privatizers tid (p.remove_sensor s),
                       sensor_map := eraseA m.sensor_map s } := by
          simp only [ManagerState.removeSensorM, hsm, hp, hpar]
        rw [hmEq]
        exact ⟨rfl, rfl, lookupA_eraseA_self _ _,
          fun s' h => lookupA_eraseA_ne _ _ _ h,
          fun t => step m.privatizers tid p hp t, hframe⟩
      | some pid =>
        cases hpp : lookupA (insertA m.privatizers tid (p.remove_sensor s)) pid with
        | none =>
          have hmEq : ManagerState.removeSensorM m s
              = { m with privatizers := insertA m.privatizers tid (p.remove_sensor s),
                         sensor_map := eraseA m.sensor_map s } := by
            simp only [ManagerState.removeSensorM, hsm, hp, hpar, hpp]
          rw [hmEq]
          exact ⟨rfl, rfl, lookupA_eraseA_self _ _,
            fun s' h => lookupA_eraseA_ne _ _ _ h,
            fun t => step m.privatizers tid p hp t, hframe⟩
        | some pp =>
          have hmEq : ManagerState.removeSensorM m s
              = { m with
                  privatizers := (insertA (insertA m.privatizers tid (p.remove_sensor s)) pid (pp.remove_sensor s)),
                  sensor_map := eraseA m.sensor_map s } := by
            simp only [ManagerState.removeSensorM, hsm, hp, hpar, hpp]
          rw [hmEq]
          refine ⟨rfl, rfl, lookupA_eraseA_self _ _,
            fun s' h => lookupA_eraseA_ne _ _ _ h, fun t => ?_, hframe⟩
          rw [step _ pid pp hpp t, step m.privatizers tid p hp t]

/-- Witness for `claim_C10_removal_frame`: removing the sensor left behind
by a concrete first contribution. -/
theorem claim_C10_removal_frame_witness :
    (ManagerState.removeSensorM mContribX sX0).level_lookup = mContribX.level_lookup ∧
    (ManagerState.removeSensorM mContribX sX0).k_map = mContribX.k_map ∧
    lookupA (ManagerState.removeSensorM mContribX sX0).sensor_map sX0 = none ∧
    (∀ s', s' ≠ sX0 →
      lookupA (ManagerState.removeSensorM mContribX sX0).sensor_map s'
        = lookupA mContribX.sensor_map s') ∧
    (∀ t, (lookupA (ManagerState.removeSensorM mContribX sX0).privatizers t).map PrivState.frame
        = (lookupA mContribX.privatizers t).map PrivState.frame) ∧
    (∀ p : PrivState, (PrivState.remove_sensor p sX0).frame = p.frame) :=
  claim_C10_removal_frame mContribX sX0

/-- C9: refuted on the code (code bug).  A privatizer whose `children`
field is `None` — which `__init__` produces exactly when its level equals
`max_level` — makes `get_total_contributing_ms_count` and
`get_total_contributing_sensor_count` fail (`TypeError` from iterating
`None`, `none` in this embedding); consequently a `contribute` call whose
target trixel sits at `max_level` (accepted by the level validation, here
trixel 128 at level 2 with `max_level = 2`) fails when it queries the child
privatizer's total count instead of returning a hint. -/
theorem claim_C9_max_level_totals_fail :
    (∀ (tbl : List (Nat × PrivState)) (fuel : Nat) (p : PrivState),
      p.children = none → ManagerState.totalMs tbl fuel p = none) ∧
    (∀ (tbl : List (Nat × PrivState)) (fuel : Nat) (p : PrivState),
      p.children = none → ManagerState.totalSensors tbl fuel p = none) ∧
    (∀ (cfg : Config) (t : Nat),
      cfg.max_level ≤ HTMx.level t → (PrivState.mk0 cfg t).children = none) ∧
    (ManagerState.contribute cfg2 mEmpty 128 sX0 measX 1).2
      = Except.error CErr.typeFault := by
  refine ⟨?_, ?_, ?_, rfl⟩
  · intro tbl fuel p h
    cases fuel with
    | zero => rfl
    | succ n =>
      rw [ManagerState.totalMs, h]
  · intro tbl fuel p h
    cases fuel with
    | zero => rfl
    | succ n =>
      rw [ManagerState.totalSensors, h]
  · intro cfg t h
    simp [PrivState.mk0, Nat.not_lt.mpr h]

/-- Witness for `claim_C9_max_level_totals_fail` at a concrete table, fuel,
and max-level privatizer. -/
theorem claim_C9_max_level_totals_fail_witness :
    ManagerState.totalMs [] 3 (PrivState.mk0 cfg2 128) = none ∧
    ManagerState.totalSensors [] 3 (PrivState.mk0 cfg2 128) = none ∧
    (PrivState.mk0 cfg2 128).children = none :=
  have h := claim_C9_max_level_totals_fail
  have hc : (PrivState.mk0 cfg2 128).children = none :=
    h.2.2.1 cfg2 128 (by decide)
  ⟨h.1 [] 3 _ hc, h.2.1 [] 3 _ hc, hc⟩

/-- C7: `contribute` fails with the invalid-target-level client error
exactly when the target level is 0 or exceeds `max_level`, and such a
failure happens before any mutation, leaving the manager state unchanged
(a level-`max_level` target instead fails later with the `TypeError` of
`claim_C9_max_level_totals_fail`, which is a different error and does
mutate state first). -/
theorem claim_C7_invalid_target_level (cfg : Config) (m : ManagerState) (sub : Nat)
    (s : UniqueSensorId) (meas : Measurement) (k : Nat) :
    ((ManagerState.contribute cfg m sub s meas k).2 = Except.error CErr.invalidTargetLevel
      ↔ (HTMx.level sub = 0 ∨ cfg.max_level < HTMx.level sub)) ∧
    ((HTMx.level sub = 0 ∨ cfg.max_level < HTMx.level sub) →
      (ManagerState.contribute cfg m sub s meas k).1 = m) := by
  by_cases h0 : HTMx.level sub = 0
  · simp [ManagerState.contribute, h0]
  · by_cases hmax : cfg.max_level < HTMx.level sub
    · simp [ManagerState.contribute, h0, hmax]
    · simp only [ManagerState.contribute, if_neg h0, if_neg hmax]
      constructor
      · simp only [h0, hmax, or_self, iff_false]
        (repeat' split) <;> simp
      · intro hor
        exact absurd hor (by simp [h0, hmax])

/-- Witness for `claim_C7_invalid_target_level` at a root-level target. -/
theorem claim_C7_invalid_target_level_witness :
    ((ManagerState.contribute cfg2 mEmpty 8 sX0 measX 1).2
        = Except.error CErr.invalidTargetLevel
      ↔ (HTMx.level 8 = 0 ∨ cfg2.max_level < HTMx.level 8)) ∧
    ((HTMx.level 8 = 0 ∨ cfg2.max_level < HTMx.level 8) →
      (ManagerState.contribute cfg2 mEmpty 8 sX0 measX 1).1 = mEmpty) :=
  claim_C7_invalid_target_level cfg2 mEmpty 8 sX0 measX 1

/-- C3: for every successful `contribute` the returned hint follows the
specification's table: `INCREASE` iff the child privatizer's total
contributing count reaches `k` and the sensor is not shadow in the child;
otherwise `DECREASE` iff this is not the sensor's first contribution, the
parent privatizer's level is positive, and the parent is not populated
(populated = its total reaches `k` while the child's does not); otherwise
`KEEP` — all flags read on the state left by the preparation step. -/
theorem claim_C3_hint (cfg : Config) (m : ManagerState) (sub : Nat) (s : UniqueSensorId)
    (meas : Measurement) (k : Nat) (m' : ManagerState) (d : TrixelLevelChange)
    (h : ManagerState.contribute cfg m sub s meas k = (m', Except.ok d)) :
    ∃ cp pid pp childTotal parentTotal,
      lookupA (ManagerState.contributePrep cfg m sub s).1.privatizers sub = some cp ∧
      cp.parent = some pid ∧
      lookupA (ManagerState.contributePrep cfg m sub s).1.privatizers pid = some pp ∧
      ManagerState.totalMs (ManagerState.contributePrep cfg m sub s).1.privatizers
        (cfg.max_level + 2) cp = some childTotal ∧
      ManagerState.totalMs (ManagerState.contributePrep cfg m sub s).1.privatizers
        (cfg.max_level + 2) pp = some parentTotal ∧
      d = specHint (decide (k ≤ childTotal)) (cp.sensor_in_shadow_mode s)
            (ManagerState.contributePrep cfg m sub s).2 (decide (0 < pp.level))
            (decide (k ≤ parentTotal) && !(decide (k ≤ childTotal))) := by
  simp only [ManagerState.contribute] at h
  split at h
  · simp [Prod.mk.injEq] at h
  split at h
  · simp [Prod.mk.injEq] at h
  split at h
  next hcp => simp [Prod.mk.injEq] at h
  next cp hcp =>
    split at h
    next hpar => simp [Prod.mk.injEq] at h
    next pid hpar =>
      split at h
      next hpp => simp [Prod.mk.injEq] at h
      next pp hpp =>
        split at h
        next hct => simp [Prod.mk.injEq] at h
        next childTotal hct =>
          split at h
          next hpt => simp [Prod.mk.injEq] at h
          next parentTotal hpt =>
            simp only [Prod.mk.injEq, Except.ok.injEq] at h
            refine ⟨cp, pid, pp, childTotal, parentTotal, hcp, hpar, hpp, hct, hpt, ?_⟩
            rw [← h.2]
            rfl

/-- Witness for `claim_C3_hint`: a concrete first contribution returning
`KEEP`. -/
theorem claim_C3_hint_witness :
    ∃ cp pid pp childTotal parentTotal,
      lookupA (ManagerState.contributePrep cfg3 mEmpty 128 sX0).1.privatizers 128 = some cp ∧
      cp.parent = some pid ∧
      lookupA (ManagerState.contributePrep cfg3 mEmpty 128 sX0).1.privatizers pid = some pp ∧
      ManagerState.totalMs (ManagerState.contributePrep cfg3 mEmpty 128 sX0).1.privatizers
        (cfg3.max_level + 2) cp = some childTotal ∧
      ManagerState.totalMs (ManagerState.contributePrep cfg3 mEmpty 128 sX0).1.privatizers
        (cfg3.max_level + 2) pp = some parentTotal ∧
      TrixelLevelChange.KEEP = specHint (decide (1 ≤ childTotal)) (cp.sensor_in_shadow_mode sX0)
            (ManagerState.contributePrep cfg3 mEmpty 128 sX0).2 (decide (0 < pp.level))
            (decide (1 ≤ parentTotal) && !(decide (1 ≤ childTotal))) :=
  claim_C3_hint cfg3 mEmpty 128 sX0 measX 1 mContribX TrixelLevelChange.KEEP rfl

/-- C5: refuted on the code.  A single first contribution on an empty
manager (target trixel 128, `k = 1`) leaves `sensor_map[s]` pointing at the
trixel-128 privatizer while the sensor is a member only of the parent
(trixel 32) privatizer: `contribute` line 238 sets `sensor_map` to the
child unconditionally, even on the default routing branch that only adds
the sensor to the parent. -/
theorem claim_C5_counterexample :
    lookupA mContribX.sensor_map sX0 = some 128 ∧
    (∃ p, lookupA mContribX.privatizers 128 = some p ∧ sX0 ∉ p.sensors) ∧
    (∃ p, lookupA mContribX.privatizers 32 = some p ∧ sX0 ∈ p.sensors) := by
  refine ⟨rfl, ⟨_, rfl, by decide⟩, ⟨_, rfl, by decide⟩⟩

/-- C4: refuted as stated.  A stale privatizer (trixel 32, no sensors, zero
counts, known last value) is deleted from `privatizers[type]` by the level
sweep, the synthesized final unknown update is recorded — but the trixel is
NOT removed from the level lookup: `_process_measurement_type` only
executes `del self._privatizers[type_][trixel_id]` and never touches
`_level_lookup`. -/
theorem claim_C4_counterexample :
    (ManagerState.processLevel cfg2 envSweepX mStaleX 1).map
      (fun r => (r.2.stale_list, lookupA r.1.privatizers 32,
                 lookupA r.1.level_lookup 1, lookupA r.2.trixel_updates 32))
      = some ([32], none, some [32],
          some { changed := true, value := none, measurement_station_count := 0,
                 sensor_count := 0 }) := by
  decide

theorem sweep_foldl_none (cfg : Config) (env : SweepEnv) (ts : List Nat) :
    ts.foldl
      (fun acc t =>
        match acc with
        | none => none
        | some b => ManagerState.processTrixel cfg env b t)
      none = none := by
  induction ts with
  | nil => rfl
  | cons t ts ih => simpa using ih

theorem lookupA_eraseA_none {K V : Type} [DecidableEq K] (m : List (K × V)) (k k' : K)
    (h : lookupA m k' = none) : lookupA (eraseA m k) k' = none := by
  by_cases hk : k' = k
  · subst hk
    exact lookupA_eraseA_self m k'
  · rw [lookupA_eraseA_ne _ _ _ hk]
    exact h

theorem erase_fold_none {K V : Type} [DecidableEq K] (l : List K) (tbl : List (K × V))
    (k : K) (h : lookupA tbl k = none) : lookupA (l.foldl eraseA tbl) k = none := by
  induction l generalizing tbl with
  | nil => exact h
  | cons a l ih => exact ih _ (lookupA_eraseA_none _ _ _ h)

theorem erase_fold_mem_none {K V : Type} [DecidableEq K] (l : List K) (tbl : List (K × V))
    (k : K) (h : k ∈ l) : lookupA (l.foldl eraseA tbl) k = none := by
  induction l generalizing tbl with
  | nil => cases h
  | cons a l ih =>
    rcases List.mem_cons.mp h with rfl | hmem
    · exact erase_fold_none l _ k (lookupA_eraseA_self tbl k)
    · exact ih _ hmem

theorem tls_fold_none (l : List (Nat × Nat)) (tbl : List (Nat × PrivState)) (k : Nat)
    (h : lookupA tbl k = none) :
    lookupA (l.foldl
      (fun tb kv =>
        match lookupA tb kv.1 with
        | some p => insertA tb kv.1 { p with tls_ms_count := some kv.2 }
        | none => tb) tbl) k = none := by
  induction l generalizing tbl with
  | nil => exact h
  | cons kv l ih =>
    refine ih _ ?_
    cases hl : lookupA tbl kv.1 with
    | none => simpa [hl] using h
    | some p =>
      simp only [hl]
      by_cases hk : k = kv.1
      · subst hk
        rw [hl] at h
        cases h
      · rw [lookupA_insertA_ne _ _ _ _ hk]
        exact h

theorem sweep_stale_invariant (cfg : Config) (env : SweepEnv) :
    ∀ (ts : List Nat) (a acc' : LevelAcc),
    ts.Nodup →
    (∀ t, t ∈ a.stale_list → t ∉ ts) →
    (∀ t p1, t ∈ a.stale_list → lookupA a.processed t = some p1 → p1.value ≠ none →
      lookupA a.trixel_updates t
        = some { changed := true, value := none, measurement_station_count := 0,
                 sensor_count := 0 }) →
    ts.foldl
      (fun acc t =>
        match acc with
        | none => none
        | some b => ManagerState.processTrixel cfg env b t)
      (some a) = some acc' →
    (∀ t p1, t ∈ acc'.stale_list → lookupA acc'.processed t = some p1 → p1.value ≠ none →
      lookupA acc'.trixel_updates t
        = some { changed := true, value := none, measurement_station_count := 0,
                 sensor_count := 0 }) := by
  intro ts
  induction ts with
  | nil =>
    intro a acc' _ _ hP hfold
    rw [List.foldl_nil] at hfold
    injection hfold with hfold
    subst hfold
    exact hP
  | cons t0 ts ih =>
    intro a acc' hnd hnotin hP hfold
    simp only [List.foldl_cons] at hfold
    cases hstep : ManagerState.processTrixel cfg env a t0 with
    | none =>
      rw [hstep] at hfold
      rw [sweep_foldl_none] at hfold
      cases hfold
    | some a1 =>
      rw [hstep] at hfold
      have hnotin1 : ∀ t, t ∈ a.stale_list → t ∉ ts :=
        fun t ht hts => hnotin t ht (List.mem_cons_of_mem _ hts)
      have ht0notin : t0 ∉ ts := (List.nodup_cons.mp hnd).1
      have ht0stale : t0 ∉ a.stale_list := fun hmem => hnotin t0 hmem (List.mem_cons_self _ _)
      simp only [ManagerState.processTrixel] at hstep
      split at hstep
      · -- lookup of t0 in the table failed: the accumulator is unchanged
        injection hstep with hstep
        subst hstep
        exact ih a acc' (List.nodup_cons.mp hnd).2 hnotin1 hP hfold
      · split at hstep
        · -- the totals succeeded: the accumulator was extended
          injection hstep with hstep
          subst hstep
          refine ih _ acc' (List.nodup_cons.mp hnd).2 ?_ ?_ hfold
          · intro t ht
            simp only at ht
            split at ht
            · rcases List.mem_append.mp ht with hmem | hmem
              · exact hnotin1 t hmem
              · rw [List.mem_singleton] at hmem
                subst hmem
                exact ht0notin
            · exact hnotin1 t ht
          · intro t p1 ht hproc hval
            simp only at ht hproc ⊢
            by_cases hteq : t = t0
            · subst hteq
              rw [lookupA_insertA_self] at hproc
              injection hproc with hproc
              subst hproc
              split at ht
              next hstale =>
                rw [if_pos hstale]
                rw [if_pos hval]
                exact lookupA_insertA_self _ _ _
              next hstale =>
                exact absurd ht ht0stale
            · rw [lookupA_insertA_ne _ _ _ _ hteq] at hproc
              have htold : t ∈ a.stale_list := by
                split at ht
                · rcases List.mem_append.mp ht with hmem | hmem
                  · exact hmem
                  · rw [List.mem_singleton] at hmem
                    exact absurd hmem hteq
                · exact ht
              have hbase := hP t p1 htold hproc hval
              split
              next hstale =>
                split
                next hv =>
                  rw [lookupA_insertA_ne _ _ _ _ hteq]
                  split
                  next hc =>
                    rw [lookupA_insertA_ne _ _ _ _ hteq]
                    exact hbase
                  next hc => exact hbase
                next hv =>
                  split
                  next hc =>
                    rw [lookupA_insertA_ne _ _ _ _ hteq]
                    exact hbase
                  next hc => exact hbase
              next hstale =>
                split
                next hc =>
                  rw [lookupA_insertA_ne _ _ _ _ hteq]
                  exact hbase
                next hc => exact hbase
        · cases hstep

/-- C4 amended: at the end of a level sweep every privatizer whose stale
flag was set is removed from the privatizer table of the type, and if its
(just recomputed) value was not unknown a final
`{changed = true, value = unknown, ms = 0, sensors = 0}` update is among the
level's observations — but the stale trixel is NOT removed from the level
lookup, which the sweep never modifies.  (The trixel set of a level is a
python set, hence the duplicate-freeness hypothesis.) -/
theorem claim_C4_amended (cfg : Config) (env : SweepEnv) (m : ManagerState) (level : Nat)
    (r : ManagerState × LevelAcc)
    (hnd : ((lookupA m.level_lookup level).getD []).Nodup)
    (h : ManagerState.processLevel cfg env m level = some r) :
    r.1.level_lookup = m.level_lookup ∧
    (∀ t, t ∈ r.2.stale_list → lookupA r.1.privatizers t = none) ∧
    (∀ t p1, t ∈ r.2.stale_list → lookupA r.2.processed t = some p1 → p1.value ≠ none →
      lookupA r.2.trixel_updates t
        = some { changed := true, value := none, measurement_station_count := 0,
                 sensor_count := 0 }) := by
  simp only [ManagerState.processLevel] at h
  split at h
  · cases h
  next acc heq =>
    injection h with h
    subst h
    refine ⟨rfl, ?_, ?_⟩
    · intro t ht
      simp only at ht ⊢
      have h3 : lookupA (acc.stale_list.foldl eraseA acc.tbl) t = none :=
        erase_fold_mem_none _ _ _ ht
      split
      · exact tls_fold_none _ _ _ h3
      · exact h3
    · intro t p1 ht hproc hval
      exact sweep_stale_invariant cfg env _ _ acc
        (List.Nodup.filter _ hnd)
        (fun t' ht' => by cases ht')
        (fun t' p' ht' => by cases ht')
        heq t p1 ht hproc hval

/-- Witness for `claim_C4_amended` at the concrete stale-privatizer sweep. -/
theorem claim_C4_amended_witness :
    ∃ r, ManagerState.processLevel cfg2 envSweepX mStaleX 1 = some r ∧
      (r.1.level_lookup = mStaleX.level_lookup ∧
       (∀ t, t ∈ r.2.stale_list → lookupA r.1.privatizers t = none) ∧
       (∀ t p1, t ∈ r.2.stale_list → lookupA r.2.processed t = some p1 → p1.value ≠ none →
         lookupA r.2.trixel_updates t
           = some { changed := true, value := none, measurement_station_count := 0,
                    sensor_count := 0 })) := by
  refine ⟨_, rfl, claim_C4_amended cfg2 envSweepX mStaleX 1 _ (by decide) rfl⟩

/-- C6: refuted on the code.  Two contribute calls with identical arguments
(first contribution of a sensor to trixel 128, parent at level 1, k = 1,
nothing populated) leave the same state, but return different routing
decisions: the first returns `KEEP` (it is a first contribution) and the
second `DECREASE` (the `first_contribution` flag no longer suppresses the
fall-back hint). -/
theorem claim_C6_counterexample :
    (ManagerState.contribute cfg3 mEmpty 128 sX0 measX 1).2
      = Except.ok TrixelLevelChange.KEEP ∧
    (ManagerState.contribute cfg3 mContribX 128 sX0 measX 1).1 = mContribX ∧
    (ManagerState.contribute cfg3 mContribX 128 sX0 measX 1).2
      = Except.ok TrixelLevelChange.DECREASE := by
  refine ⟨rfl, ?_, rfl⟩
  decide

namespace PrivState

theorem remove_sensor_parent (p : PrivState) (s : UniqueSensorId) :
    (p.remove_sensor s).parent = p.parent := rfl

theorem remove_sensor_msCore (p : PrivState) (s : UniqueSensorId) :
    (p.remove_sensor s).msCore = p.msCore := rfl

theorem add_sensor_msCore (p : PrivState) (s : UniqueSensorId) (e : Bool) :
    (p.add_sensor s e).msCore = p.msCore := rfl

theorem add_sensor_level (p : PrivState) (s : UniqueSensorId) (e : Bool) :
    (p.add_sensor s e).level = p.level := rfl

theorem remove_sensor_shadow_self (p : PrivState) (s : UniqueSensorId) :
    (p.remove_sensor s).sensor_in_shadow_mode s = true := by
  simp [remove_sensor, sensor_in_shadow_mode, lookupA_eraseA_self]

theorem add_sensor_shadow_eq (p : PrivState) (s : UniqueSensorId) (e : Bool) :
    (p.add_sensor s e).sensor_in_shadow_mode s = p.sensor_in_shadow_mode s := by
  by_cases h : containsA p.shadow_map s
  · simp [add_sensor, h, sensor_in_shadow_mode]
  · have hnone : lookupA p.shadow_map s = none :=
      lookupA_eq_none_of_contains_false _ _ (by simpa using h)
    simp [add_sensor, h, sensor_in_shadow_mode, lookupA_append_right _ _ _ hnone, hnone]

theorem remove_sensor_idem (p : PrivState) (s : UniqueSensorId) :
    (p.remove_sensor s).remove_sensor s = p.remove_sensor s := by
  simp only [remove_sensor]
  rw [removeS_of_not_mem (not_mem_removeS _ _),
      eraseA_of_lookup_none _ _ (lookupA_eraseA_self _ _)]

theorem add_sensor_idem (p : PrivState) (s : UniqueSensorId) (e : Bool) :
    (p.add_sensor s e).add_sensor s e = p.add_sensor s e := by
  have hcont : containsA (if containsA p.shadow_map s then p.shadow_map
      else p.shadow_map ++ [(s, true)]) s = true := by
    by_cases h : containsA p.shadow_map s
    · rwa [if_pos h]
    · rw [if_neg h]
      have hnone : lookupA p.shadow_map s = none :=
        lookupA_eq_none_of_contains_false _ _ (by simpa using h)
      simp [containsA, lookupA_append_right _ _ _ hnone]
  simp only [add_sensor, PrivState.mk.injEq, true_and, and_true]
  refine ⟨insertS_of_mem (mem_insertS_self _ _), ?_, insertA_insertA_self _ _ _⟩
  rw [if_pos hcont]

theorem mk0_shadow (cfg : Config) (t : Nat) (s : UniqueSensorId) :
    (PrivState.mk0 cfg t).sensor_in_shadow_mode s = true := rfl

theorem mem_add_sensor_sensors (p : PrivState) (s s' : UniqueSensorId) (e : Bool)
    (h : s' ≠ s) : s' ∈ (p.add_sensor s e).sensors ↔ s' ∈ p.sensors :=
  mem_insertS_iff h

theorem mem_remove_sensor_sensors (p : PrivState) (s s' : UniqueSensorId)
    (h : s' ≠ s) : s' ∈ (p.remove_sensor s).sensors ↔ s' ∈ p.sensors :=
  mem_removeS_iff h

end PrivState

namespace ManagerState

theorem gp_aux_sensor_map (cfg : Config) :
    ∀ (fuel : Nat) (m : ManagerState) (t : Nat),
    (getPrivatizerIAux cfg fuel m t).sensor_map = m.sensor_map := by
  intro fuel
  induction fuel with
  | zero => intro m t; rfl
  | succ n ih =>
    intro m t
    by_cases hc : containsA m.privatizers t
    · simp only [getPrivatizerIAux, if_pos hc]
    · simp only [getPrivatizerIAux, if_neg hc]
      by_cases hl : 0 < HTMx.level t
      · simp only [if_pos hl]
        exact ih _ _
      · simp only [if_neg hl]

theorem gp_aux_lookup (cfg : Config) :
    ∀ (fuel : Nat) (m : ManagerState) (t t' : Nat),
    lookupA (getPrivatizerIAux cfg fuel m t).privatizers t' = lookupA m.privatizers t' ∨
    (lookupA m.privatizers t' = none ∧
     lookupA (getPrivatizerIAux cfg fuel m t).privatizers t' = some (PrivState.mk0 cfg t')) := by
  intro fuel
  induction fuel with
  | zero => intro m t t'; left; rfl
  | succ n ih =>
    intro m t t'
    by_cases hc : containsA m.privatizers t
    · left
      simp only [getPrivatizerIAux, if_pos hc]
    · by_cases hl : 0 < HTMx.level t
      · by_cases ht' : t' = t
        · subst ht'
          right
          refine ⟨lookupA_eq_none_of_contains_false _ _ (by simpa using hc), ?_⟩
          simp only [getPrivatizerIAux, if_neg hc, if_pos hl]
          exact lookupA_insertA_self _ _ _
        · have hrw : lookupA (getPrivatizerIAux cfg (n + 1) m t).privatizers t' = lookupA (getPrivatizerIAux cfg n { m with level_lookup := insertA m.level_lookup (HTMx.level t) (insertS ((lookupA m.level_lookup (HTMx.level t)).getD []) t) } (HTMx.parent t)).privatizers t' := by
            simp only [getPrivatizerIAux, if_neg hc, if_pos hl]
            exact lookupA_insertA_ne _ _ _ _ ht'
          rw [hrw]
          exact ih _ (HTMx.parent t) t'
      · by_cases ht' : t' = t
        · subst ht'
          right
          refine ⟨lookupA_eq_none_of_contains_false _ _ (by simpa using hc), ?_⟩
          simp only [getPrivatizerIAux, if_neg hc, if_neg hl]
          exact lookupA_insertA_self _ _ _
        · left
          simp only [getPrivatizerIAux, if_neg hc, if_neg hl]
          exact lookupA_insertA_ne _ _ _ _ ht'

theorem totalMs_fold_congr (t1 t2 : List (Nat × PrivState)) (ht : tableMsEq t1 t2)
    (n : Nat) (ihn : ∀ p q : PrivState, p.msCore = q.msCore → totalMs t1 n p = totalMs t2 n q) :
    ∀ (cs : List Nat) (acc : Option Nat),
    cs.foldl
      (fun acc c =>
        match acc with
        | none => none
        | some a =>
          match lookupA t1 c with
          | none => some a
          | some cp =>
            match totalMs t1 n cp with
            | none => none
            | some v => some (a + v)) acc
    = cs.foldl
      (fun acc c =>
        match acc with
        | none => none
        | some a =>
          match lookupA t2 c with
          | none => some a
          | some cp =>
            match totalMs t2 n cp with
            | none => none
            | some v => some (a + v)) acc := by
  intro cs acc
  apply List.foldl_ext
  intro a c _
  cases a with
  | none => rfl
  | some v =>
    have hcl := ht c
    cases h1 : lookupA t1 c with
    | none =>
      cases h2 : lookupA t2 c with
      | none => rfl
      | some cp2 =>
        rw [h1, h2] at hcl
        simp at hcl
    | some cp1 =>
      cases h2 : lookupA t2 c with
      | none =>
        rw [h1, h2] at hcl
        simp at hcl
      | some cp2 =>
        rw [h1, h2] at hcl
        simp only [Option.map_some'] at hcl
        injection hcl with hcl
        have hv := ihn cp1 cp2 hcl
        simp only [hv]

theorem totalMs_congr (t1 t2 : List (Nat × PrivState)) (ht : tableMsEq t1 t2) :
    ∀ (fuel : Nat) (p q : PrivState), p.msCore = q.msCore →
    totalMs t1 fuel p = totalMs t2 fuel q := by
  intro fuel
  induction fuel with
  | zero => intro p q _; rfl
  | succ n ih =>
    intro p q hpq
    have hch : p.children = q.children := congrArg Prod.fst hpq
    have hcnt : p.contributing_ms_count = q.contributing_ms_count := congrArg Prod.snd hpq
    rw [totalMs, totalMs, ← hch]
    cases hc : p.children with
    | none => rfl
    | some cs =>
      dsimp only
      rw [totalMs_fold_congr t1 t2 ht n ih cs (some 0), hcnt]

end ManagerState

namespace ManagerState

theorem gp_noop (cfg : Config) (m : ManagerState) (t : Nat)
    (h : containsA m.privatizers t = true) : getPrivatizerI cfg m t = m := by
  simp only [getPrivatizerI, getPrivatizerIAux, if_pos h]

theorem createPair_sensor_map (cfg : Config) (m : ManagerState) (sub : Nat) :
    (createPair cfg m sub).sensor_map = m.sensor_map := by
  simp only [createPair, getPrivatizerI]
  split
  · rw [gp_aux_sensor_map, gp_aux_sensor_map]
  · rw [gp_aux_sensor_map]

theorem createPair_lookup (cfg : Config) (m : ManagerState) (sub : Nat) (t' : Nat) :
    lookupA (createPair cfg m sub).privatizers t' = lookupA m.privatizers t' ∨
    (lookupA m.privatizers t' = none ∧
     lookupA (createPair cfg m sub).privatizers t' = some (PrivState.mk0 cfg t')) := by
  simp only [createPair, getPrivatizerI]
  split
  · rcases gp_aux_lookup cfg _ (getPrivatizerIAux cfg (sub + 1) m sub) _ t' with h2 | ⟨h2a, h2b⟩
    · rw [h2]
      exact gp_aux_lookup cfg _ m sub t'
    · rcases gp_aux_lookup cfg (sub + 1) m sub t' with h1 | ⟨h1a, h1b⟩
      · right
        exact ⟨by rw [← h1]; exact h2a, h2b⟩
      · rw [h1b] at h2a
        cases h2a
  · exact gp_aux_lookup cfg (sub + 1) m sub t'

theorem contributePrep_no_removal (cfg : Config) (m : ManagerState) (sub : Nat)
    (s : UniqueSensorId)
    (hmap : lookupA m.sensor_map s = none ∨ lookupA m.sensor_map s = some sub) :
    contributePrep cfg m sub s
      = ({ createPair cfg m sub with sensor_map := insertA m.sensor_map s sub },
         !containsA m.sensor_map s) := by
  simp only [contributePrep, createPair_sensor_map]
  rcases hmap with hmap | hmap
  · simp only [hmap]
    rw [createPair_sensor_map]
  · simp only [hmap, ne_eq, not_true_eq_false, if_false]
    rw [createPair_sensor_map]

theorem memberAt_insertA_of (tbl : List (Nat × PrivState)) (t0 : Nat) (p p' : PrivState)
    (s' : UniqueSensorId) (hp : lookupA tbl t0 = some p)
    (hiff : s' ∈ p'.sensors ↔ s' ∈ p.sensors) (t : Nat) :
    memberAt (insertA tbl t0 p') t s' ↔ memberAt tbl t s' := by
  by_cases ht : t = t0
  · subst ht
    unfold memberAt
    rw [lookupA_insertA_self, hp]
    constructor
    · rintro ⟨q, hq, hmem⟩
      have hq2 := Option.some.inj hq
      subst hq2
      exact ⟨p, rfl, hiff.mp hmem⟩
    · rintro ⟨q, hq, hmem⟩
      have hq2 := Option.some.inj hq
      subst hq2
      exact ⟨p', rfl, hiff.mpr hmem⟩
  · unfold memberAt
    rw [lookupA_insertA_ne _ _ _ _ ht]

theorem createPair_memberAt (cfg : Config) (m : ManagerState) (sub : Nat)
    (s' : UniqueSensorId) (t : Nat) :
    memberAt (createPair cfg m sub).privatizers t s' ↔ memberAt m.privatizers t s' := by
  rcases createPair_lookup cfg m sub t with hl | ⟨hn, hmk⟩
  · unfold memberAt
    rw [hl]
  · unfold memberAt
    rw [hmk, hn]
    constructor
    · rintro ⟨q, hq, hmem⟩
      have hq2 := Option.some.inj hq
      subst hq2
      simp [PrivState.mk0] at hmem
    · rintro ⟨q, hq, _⟩
      cases hq

theorem removeSensorM_map_ne (m : ManagerState) (s s' : UniqueSensorId) (h : s' ≠ s) :
    lookupA (removeSensorM m s).sensor_map s' = lookupA m.sensor_map s' := by
  cases hsm : lookupA m.sensor_map s with
  | none => simp only [removeSensorM, hsm]
  | some tid =>
    cases hp : lookupA m.privatizers tid with
    | none =>
      simp only [removeSensorM, hsm, hp]
      exact lookupA_eraseA_ne _ _ _ h
    | some p =>
      simp only [removeSensorM, hsm, hp]
      exact lookupA_eraseA_ne _ _ _ h

theorem removeSensorM_memberAt (m : ManagerState) (s s' : UniqueSensorId) (h : s' ≠ s)
    (t : Nat) :
    memberAt (removeSensorM m s).privatizers t s' ↔ memberAt m.privatizers t s' := by
  cases hsm : lookupA m.sensor_map s with
  | none => simp only [removeSensorM, hsm]
  | some tid =>
    cases hp : lookupA m.privatizers tid with
    | none => simp only [removeSensorM, hsm, hp]
    | some p =>
      simp only [removeSensorM, hsm, hp]
      split
      next pid hpar =>
        split
        next pp hpp =>
          exact (memberAt_insertA_of _ _ _ _ _ hpp
              (PrivState.mem_remove_sensor_sensors pp s s' h) t).trans
            (memberAt_insertA_of _ _ _ _ _ hp
              (PrivState.mem_remove_sensor_sensors p s s' h) t)
        next hpp =>
          exact memberAt_insertA_of _ _ _ _ _ hp
            (PrivState.mem_remove_sensor_sensors p s s' h) t
      next hpar =>
        exact memberAt_insertA_of _ _ _ _ _ hp
          (PrivState.mem_remove_sensor_sensors p s s' h) t

theorem contributePrep_map_ne (cfg : Config) (m : ManagerState) (sub : Nat)
    (s s' : UniqueSensorId) (h : s' ≠ s) :
    lookupA (contributePrep cfg m sub s).1.sensor_map s' = lookupA m.sensor_map s' := by
  simp only [contributePrep, createPair_sensor_map]
  cases hsm : lookupA m.sensor_map s with
  | none =>
    simp only [hsm]
    rw [lookupA_insertA_ne _ _ _ _ h, createPair_sensor_map]
  | some tid =>
    simp only [hsm]
    by_cases htid : tid ≠ sub
    · rw [if_pos htid, lookupA_insertA_ne _ _ _ _ h, removeSensorM_map_ne _ _ _ h,
        createPair_sensor_map]
    · rw [if_neg htid, lookupA_insertA_ne _ _ _ _ h, createPair_sensor_map]

theorem contributePrep_memberAt (cfg : Config) (m : ManagerState) (sub : Nat)
    (s s' : UniqueSensorId) (h : s' ≠ s) (t : Nat) :
    memberAt (contributePrep cfg m sub s).1.privatizers t s'
      ↔ memberAt m.privatizers t s' := by
  simp only [contributePrep, createPair_sensor_map]
  cases hsm : lookupA m.sensor_map s with
  | none =>
    simp only [hsm]
    exact createPair_memberAt cfg m sub s' t
  | some tid =>
    simp only [hsm]
    by_cases htid : tid ≠ sub
    · rw [if_pos htid]
      exact (removeSensorM_memberAt _ _ _ h t).trans (createPair_memberAt cfg m sub s' t)
    · rw [if_neg htid]
      exact createPair_memberAt cfg m sub s' t

end ManagerState

/-- C6 amended: when the sensor is in shadow mode in both the target
privatizer and its parent (the state before any unshadowing tick), and its
`sensor_map` entry — if any — already points at the submitted sub-trixel,
then a repeated identical `contribute` leaves the state exactly as the
first call left it; the routing decision of the second call equals the
first whenever the first call was not the sensor's first contribution, and
on a first contribution it can only change from `KEEP` to `DECREASE` (the
fall-back hint that the `first_contribution` flag suppressed).  The claim's
unconditional state-and-decision idempotence is refuted by
`claim_C6_counterexample`. -/
theorem claim_C6_amended (cfg : Config) (m : ManagerState) (sub : Nat) (s : UniqueSensorId)
    (meas : Measurement) (k : Nat) (m1 : ManagerState) (d1 : TrixelLevelChange)
    (hmap : lookupA m.sensor_map s = none ∨ lookupA m.sensor_map s = some sub)
    (hpar : ∀ q, lookupA m.privatizers sub = some q → q.parent = some (HTMx.parent sub))
    (hsc : m.shadowAt sub s = true)
    (hsp : m.shadowAt (HTMx.parent sub) s = true)
    (hne : HTMx.parent sub ≠ sub)
    (h1 : ManagerState.contribute cfg m sub s meas k = (m1, Except.ok d1)) :
    ∃ d2, ManagerState.contribute cfg m1 sub s meas k = (m1, Except.ok d2) ∧
      (lookupA m.sensor_map s = some sub → d2 = d1) ∧
      (d2 = d1 ∨ (d1 = TrixelLevelChange.KEEP ∧ d2 = TrixelLevelChange.DECREASE)) := by
  have hprep := ManagerState.contributePrep_no_removal cfg m sub s hmap
  simp only [ManagerState.contribute] at h1
  split at h1
  next hlvl0 => simp [Prod.mk.injEq] at h1
  next hlvl0 =>
  split at h1
  next hlvlmax => simp [Prod.mk.injEq] at h1
  next hlvlmax =>
  simp only [hprep] at h1
  split at h1
  next hcp0 => simp [Prod.mk.injEq] at h1
  next cp0 hcp0 =>
  split at h1
  next hpar0 => simp [Prod.mk.injEq] at h1
  next pid0 hpar0 =>
  split at h1
  next hpp0 => simp [Prod.mk.injEq] at h1
  next pp0 hpp0 =>
  split at h1
  next hct0 => simp [Prod.mk.injEq] at h1
  next ct0 hct0 =>
  split at h1
  next hpt0 => simp [Prod.mk.injEq] at h1
  next pt0 hpt0 =>
  have hsc0 : cp0.sensor_in_shadow_mode s = true := by
    rcases ManagerState.createPair_lookup cfg m sub sub with hL | ⟨hLn, hLmk⟩
    · rw [hL] at hcp0
      simp only [ManagerState.shadowAt, hcp0] at hsc
      exact hsc
    · rw [hLmk] at hcp0
      have hmk := Option.some.inj hcp0
      rw [← hmk]
      exact PrivState.mk0_shadow cfg sub s
  have hpid0 : pid0 = HTMx.parent sub := by
    rcases ManagerState.createPair_lookup cfg m sub sub with hL | ⟨hLn, hLmk⟩
    · rw [hL] at hcp0
      have hq := hpar cp0 hcp0
      rw [hpar0] at hq
      exact Option.some.inj hq
    · rw [hLmk] at hcp0
      have hmk := Option.some.inj hcp0
      rw [← hmk] at hpar0
      have hlv : 0 < HTMx.level sub := Nat.pos_of_ne_zero hlvl0
      simp only [PrivState.mk0] at hpar0
      rw [if_pos hlv] at hpar0
      exact (Option.some.inj hpar0).symm
  subst hpid0
  have hsp0 : pp0.sensor_in_shadow_mode s = true := by
    rcases ManagerState.createPair_lookup cfg m sub (HTMx.parent sub) with hL | ⟨hLn, hLmk⟩
    · rw [hL] at hpp0
      simp only [ManagerState.shadowAt, hpp0] at hsp
      exact hsp
    · rw [hLmk] at hpp0
      have hmk := Option.some.inj hpp0
      rw [← hmk]
      exact PrivState.mk0_shadow cfg _ s
  simp only [hsc0, hsp0, Bool.not_true, Bool.and_false, Bool.false_or, Bool.or_false,
    Bool.and_true, Bool.true_and, Bool.or_true, Bool.false_eq_true, if_false, if_true] at h1
  have hlkp : lookupA (insertA (ManagerState.createPair cfg m sub).privatizers sub
      (cp0.remove_sensor s)) (HTMx.parent sub) = some pp0 := by
    rw [lookupA_insertA_ne _ _ _ _ hne]
    exact hpp0
  simp only [hlkp] at h1
  simp only [Prod.mk.injEq, Except.ok.injEq] at h1
  obtain ⟨hm1, hd1⟩ := h1
  have hm1sub : lookupA m1.privatizers sub = some (cp0.remove_sensor s) := by
    rw [← hm1]
    dsimp only
    rw [lookupA_insertA_ne _ _ _ _ (Ne.symm hne)]
    exact lookupA_insertA_self _ _ _
  have hm1pid : lookupA m1.privatizers (HTMx.parent sub)
      = some (pp0.add_sensor s true) := by
    rw [← hm1]
    dsimp only
    exact lookupA_insertA_self _ _ _
  have hm1smap : m1.sensor_map = insertA m.sensor_map s sub := by
    rw [← hm1]
  have hcont_sub : containsA m1.privatizers sub = true := by
    simp [containsA, hm1sub]
  have hcont_pid : containsA m1.privatizers (HTMx.parent sub) = true := by
    simp [containsA, hm1pid]
  have hsmap1 : lookupA m1.sensor_map s = some sub := by
    rw [hm1smap]
    exact lookupA_insertA_self _ _ _
  have hcpair : ManagerState.createPair cfg m1 sub = m1 := by
    simp only [ManagerState.createPair, ManagerState.gp_noop cfg m1 sub hcont_sub, hm1sub]
    have hbind : (some (cp0.remove_sensor s)).bind PrivState.parent
        = some (HTMx.parent sub) := by
      simp [PrivState.remove_sensor_parent, hpar0]
    simp only [hbind]
    exact ManagerState.gp_noop cfg m1 _ hcont_pid
  have hprep2 : ManagerState.contributePrep cfg m1 sub s = (m1, false) := by
    simp only [ManagerState.contributePrep, hcpair, hsmap1, containsA, Option.isSome_some,
      Bool.not_true, ne_eq, not_true_eq_false, if_false]
    rw [hm1smap, insertA_insertA_self, ← hm1smap]
  have htab : tableMsEq m1.privatizers (ManagerState.createPair cfg m sub).privatizers := by
    intro x
    by_cases hx1 : x = HTMx.parent sub
    · subst hx1
      rw [hm1pid, hpp0]
      simp [PrivState.add_sensor_msCore]
    · by_cases hx2 : x = sub
      · subst hx2
        rw [hm1sub, hcp0]
        simp [PrivState.remove_sensor_msCore]
      · have hx : lookupA m1.privatizers x
            = lookupA (ManagerState.createPair cfg m sub).privatizers x := by
          rw [← hm1]
          dsimp only
          rw [lookupA_insertA_ne _ _ _ _ hx1, lookupA_insertA_ne _ _ _ _ hx2]
        rw [hx]
  have htotC : ManagerState.totalMs m1.privatizers (cfg.max_level + 2)
      (cp0.remove_sensor s) = some ct0 := by
    rw [ManagerState.totalMs_congr m1.privatizers _ htab _ _ cp0
      (PrivState.remove_sensor_msCore _ _)]
    exact hct0
  have htotP : ManagerState.totalMs m1.privatizers (cfg.max_level + 2)
      (pp0.add_sensor s true) = some pt0 := by
    rw [ManagerState.totalMs_congr m1.privatizers _ htab _ _ pp0
      (PrivState.add_sensor_msCore _ _ _)]
    exact hpt0
  refine ⟨if (decide (0 < pp0.level) && !(decide (k ≤ pt0) && !decide (k ≤ ct0))) = true
      then TrixelLevelChange.DECREASE else TrixelLevelChange.KEEP, ?_, ?_, ?_⟩
  · simp only [ManagerState.contribute, if_neg hlvl0, if_neg hlvlmax, hprep2]
    simp only [hm1sub, PrivState.remove_sensor_parent, hpar0, hm1pid, htotC, htotP]
    simp only [PrivState.remove_sensor_shadow_self, PrivState.add_sensor_shadow_eq, hsp0,
      Bool.not_true, Bool.and_false, Bool.false_or, Bool.or_false, Bool.and_true,
      Bool.true_and, Bool.or_true, Bool.false_eq_true, if_false, if_true, Bool.not_false]
    simp only [PrivState.remove_sensor_idem, insertA_of_lookup_eq _ _ _ hm1sub, hm1pid,
      PrivState.add_sensor_idem, insertA_of_lookup_eq _ _ _ hm1pid,
      PrivState.add_sensor_level, Bool.not_false, Bool.true_and]
  · intro hsome
    have hcF : containsA m.sensor_map s = true := by
      simp [containsA, hsome]
    rw [← hd1]
    simp [hcF]
  · by_cases hF : containsA m.sensor_map s = true
    · left
      rw [← hd1]
      simp [hF]
    · have hFf : containsA m.sensor_map s = false := by
        simpa using hF
      rw [← hd1]
      by_cases hA : (decide (0 < pp0.level) && !(decide (k ≤ pt0) && !decide (k ≤ ct0))) = true
      · right
        constructor
        · simp [hFf]
        · rw [if_pos hA]
      · left
        rw [if_neg hA]
        simp [hFf]

/-- Witness for `claim_C6_amended`: repeating the concrete first
contribution reproduces the state; the decision changes from `KEEP` to
`DECREASE`, the allowed exception. -/
theorem claim_C6_amended_witness :
    ∃ d2, ManagerState.contribute cfg3 mContribX 128 sX0 measX 1
        = (mContribX, Except.ok d2) ∧
      (lookupA mEmpty.sensor_map sX0 = some 128 → d2 = TrixelLevelChange.KEEP) ∧
      (d2 = TrixelLevelChange.KEEP ∨
       (TrixelLevelChange.KEEP = TrixelLevelChange.KEEP ∧ d2 = TrixelLevelChange.DECREASE)) :=
  claim_C6_amended cfg3 mEmpty 128 sX0 measX 1 mContribX TrixelLevelChange.KEEP
    (Or.inl rfl) (fun q h => by cases h) (by decide) (by decide) (by decide) rfl

/-- C5 amended, scoped to the settled operations.  For `contribute`: after
every successful call, `sensor_map[s]` is the privatizer of the submitted
sub-trixel, the acting sensor is a member of the child's or the parent's
sensor set provided it was in shadow mode in one of them at decision time
or one of them was populated, and no other sensor's `sensor_map` entry or
sensor-set memberships change.  For `remove_sensor`: the removed sensor's
`sensor_map` entry is deleted (so the invariant is vacuous for it) and no
other sensor's entry or memberships change.  The invariant as stated —
membership in the mapped privatizer itself — does not hold: on the default
routing branch the sensor lives only in the parent. -/
theorem claim_C5_amended (cfg : Config) (m : ManagerState) (sub : Nat) (s : UniqueSensorId)
    (meas : Measurement) (k : Nat) (m' : ManagerState) (d : TrixelLevelChange)
    (h : ManagerState.contribute cfg m sub s meas k = (m', Except.ok d)) :
    lookupA m'.sensor_map s = some sub ∧
    (∀ cp pid pp childTotal parentTotal,
      lookupA (ManagerState.contributePrep cfg m sub s).1.privatizers sub = some cp →
      cp.parent = some pid →
      pid ≠ sub →
      lookupA (ManagerState.contributePrep cfg m sub s).1.privatizers pid = some pp →
      ManagerState.totalMs (ManagerState.contributePrep cfg m sub s).1.privatizers
        (cfg.max_level + 2) cp = some childTotal →
      ManagerState.totalMs (ManagerState.contributePrep cfg m sub s).1.privatizers
        (cfg.max_level + 2) pp = some parentTotal →
      (cp.sensor_in_shadow_mode s || pp.sensor_in_shadow_mode s
        || decide (k ≤ childTotal)
        || (decide (k ≤ parentTotal) && !decide (k ≤ childTotal))) = true →
      (∃ q, lookupA m'.privatizers sub = some q ∧ s ∈ q.sensors) ∨
      (∃ q, lookupA m'.privatizers pid = some q ∧ s ∈ q.sensors)) ∧
    (∀ s', s' ≠ s →
      lookupA m'.sensor_map s' = lookupA m.sensor_map s' ∧
      ∀ t, memberAt m'.privatizers t s' ↔ memberAt m.privatizers t s') ∧
    (∀ (m0 : ManagerState) (s0 : UniqueSensorId),
      lookupA (ManagerState.removeSensorM m0 s0).sensor_map s0 = none ∧
      ∀ s', s' ≠ s0 →
        lookupA (ManagerState.removeSensorM m0 s0).sensor_map s'
          = lookupA m0.sensor_map s' ∧
        ∀ t, memberAt (ManagerState.removeSensorM m0 s0).privatizers t s'
          ↔ memberAt m0.privatizers t s') := by
  simp only [ManagerState.contribute] at h
  split at h
  · simp [Prod.mk.injEq] at h
  split at h
  · simp [Prod.mk.injEq] at h
  split at h
  next hcp0 => simp [Prod.mk.injEq] at h
  next cp0 hcp0 =>
    split at h
    next hpar0 => simp [Prod.mk.injEq] at h
    next pid0 hpar0 =>
      split at h
      next hpp0 => simp [Prod.mk.injEq] at h
      next pp0 hpp0 =>
        split at h
        next hct0 => simp [Prod.mk.injEq] at h
        next childTotal0 hct0 =>
          split at h
          next hpt0 => simp [Prod.mk.injEq] at h
          next parentTotal0 hpt0 =>
            simp only [Prod.mk.injEq, Except.ok.injEq] at h
            refine ⟨?_, ?_, ?_, ?_⟩
            · rw [← h.1]
              exact lookupA_insertA_self _ _ _
            · intro cp pid pp childTotal parentTotal hcp hpar hne hpp hct hpt hflags
              rw [hcp0] at hcp
              injection hcp with hcpEq
              subst hcpEq
              rw [hpar0] at hpar
              injection hpar with hpidEq
              subst hpidEq
              rw [hpp0] at hpp
              injection hpp with hppEq
              subst hppEq
              rw [hct0] at hct
              injection hct with hctEq
              subst hctEq
              rw [hpt0] at hpt
              injection hpt with hptEq
              subst hptEq
              rw [← h.1]
              by_cases hC1 : ((decide (k ≤ childTotal0) && !cp0.sensor_in_shadow_mode s)
                  || (cp0.sensor_in_shadow_mode s && !pp0.sensor_in_shadow_mode s)) = true
              · left
                rw [if_pos hC1]
                have hq : ∀ tbl, lookupA (insertA tbl sub (cp0.add_sensor s
                    (!cp0.sensor_in_shadow_mode s
                      || (cp0.sensor_in_shadow_mode s && pp0.sensor_in_shadow_mode s)))) sub
                    = some (cp0.add_sensor s (!cp0.sensor_in_shadow_mode s
                      || (cp0.sensor_in_shadow_mode s && pp0.sensor_in_shadow_mode s))) :=
                  fun tbl => lookupA_insertA_self _ _ _
                split
                next pp1 hlook =>
                  split
                  · refine ⟨cp0.add_sensor s (!cp0.sensor_in_shadow_mode s
                      || (cp0.sensor_in_shadow_mode s && pp0.sensor_in_shadow_mode s)), ?_,
                        mem_insertS_self _ _⟩
                    rw [lookupA_insertA_ne _ _ _ _ (Ne.symm hne)]
                    exact hq _
                  · refine ⟨cp0.add_sensor s (!cp0.sensor_in_shadow_mode s
                      || (cp0.sensor_in_shadow_mode s && pp0.sensor_in_shadow_mode s)), ?_,
                        mem_insertS_self _ _⟩
                    rw [lookupA_insertA_ne _ _ _ _ (Ne.symm hne)]
                    exact hq _
                next hlook =>
                  exact ⟨cp0.add_sensor s (!cp0.sensor_in_shadow_mode s
                      || (cp0.sensor_in_shadow_mode s && pp0.sensor_in_shadow_mode s)),
                    hq _, mem_insertS_self _ _⟩
              · rw [if_neg hC1]
                by_cases hC2 : ((decide (k ≤ parentTotal0) && !decide (k ≤ childTotal0))
                    || pp0.sensor_in_shadow_mode s) = true
                · right
                  have hpidlook : lookupA (insertA
                      (ManagerState.contributePrep cfg m sub s).1.privatizers sub
                      (cp0.remove_sensor s)) pid0 = some pp0 := by
                    rw [lookupA_insertA_ne _ _ _ _ hne]
                    exact hpp0
                  simp only [hpidlook, if_pos hC2]
                  exact ⟨_, lookupA_insertA_self _ _ _, mem_insertS_self _ _⟩
                · exfalso
                  revert hC1 hC2 hflags
                  cases hsc : cp0.sensor_in_shadow_mode s <;>
                    cases hsp : pp0.sensor_in_shadow_mode s <;>
                      cases hkc : decide (k ≤ childTotal0) <;>
                        cases hkp : decide (k ≤ parentTotal0) <;> simp
            · intro s' hs'
              constructor
              · rw [← h.1]
                exact ManagerState.contributePrep_map_ne cfg m sub s s' hs'
              · intro t
                rw [← h.1]
                have hM4 : ∀ tt : Nat,
                    memberAt (ManagerState.contributePrep cfg m sub s).1.privatizers tt s'
                      ↔ memberAt m.privatizers tt s' :=
                  fun tt => ManagerState.contributePrep_memberAt cfg m sub s s' hs' tt
                by_cases hC1 : ((decide (k ≤ childTotal0) && !cp0.sensor_in_shadow_mode s)
                    || (cp0.sensor_in_shadow_mode s && !pp0.sensor_in_shadow_mode s)) = true
                · rw [if_pos hC1]
                  have h1 := ManagerState.memberAt_insertA_of _ sub _ _ s' hcp0
                    (PrivState.mem_add_sensor_sensors cp0 s s'
                      (!cp0.sensor_in_shadow_mode s
                        || (cp0.sensor_in_shadow_mode s && pp0.sensor_in_shadow_mode s))
                      hs') t
                  split
                  next pp1 hlook =>
                    split
                    · exact ((ManagerState.memberAt_insertA_of _ pid0 _ _ s' hlook
                        (PrivState.mem_add_sensor_sensors pp1 s s'
                          (!pp0.sensor_in_shadow_mode s
                            || (cp0.sensor_in_shadow_mode s && pp0.sensor_in_shadow_mode s))
                          hs') t).trans h1).trans (hM4 t)
                    · exact ((ManagerState.memberAt_insertA_of _ pid0 _ _ s' hlook
                        (PrivState.mem_remove_sensor_sensors pp1 s s' hs') t).trans h1).trans
                          (hM4 t)
                  next hlook =>
                    exact h1.trans (hM4 t)
                · rw [if_neg hC1]
                  have h1 := ManagerState.memberAt_insertA_of _ sub _ _ s' hcp0
                    (PrivState.mem_remove_sensor_sensors cp0 s s' hs') t
                  split
                  next pp1 hlook =>
                    split
                    · exact ((ManagerState.memberAt_insertA_of _ pid0 _ _ s' hlook
                        (PrivState.mem_add_sensor_sensors pp1 s s'
                          (!pp0.sensor_in_shadow_mode s
                            || (cp0.sensor_in_shadow_mode s && pp0.sensor_in_shadow_mode s))
                          hs') t).trans h1).trans (hM4 t)
                    · exact ((ManagerState.memberAt_insertA_of _ pid0 _ _ s' hlook
                        (PrivState.mem_remove_sensor_sensors pp1 s s' hs') t).trans h1).trans
                          (hM4 t)
                  next hlook =>
                    exact h1.trans (hM4 t)
            · intro m0 s0
              refine ⟨?_, ?_⟩
              · cases hsm : lookupA m0.sensor_map s0 with
                | none =>
                  simp only [ManagerState.removeSensorM, hsm]
                | some tid =>
                  cases hp : lookupA m0.privatizers tid with
                  | none =>
                    simp only [ManagerState.removeSensorM, hsm, hp]
                    exact lookupA_eraseA_self _ _
                  | some p =>
                    simp only [ManagerState.removeSensorM, hsm, hp]
                    exact lookupA_eraseA_self _ _
              · intro s' hs'
                exact ⟨ManagerState.removeSensorM_map_ne m0 s0 s' hs',
                       fun t => ManagerState.removeSensorM_memberAt m0 s0 s' hs' t⟩

/-- Witness for `claim_C5_amended`: the concrete first contribution leaves
the sensor in the child's or the parent's sensor set (here the parent's),
leaves the absent second sensor's map entry and memberships untouched, and
removing the sensor afterwards clears its map entry. -/
theorem claim_C5_amended_witness :
    lookupA mContribX.sensor_map sX0 = some 128 ∧
    ((∃ q, lookupA mContribX.privatizers 128 = some q ∧ sX0 ∈ q.sensors) ∨
     (∃ q, lookupA mContribX.privatizers 32 = some q ∧ sX0 ∈ q.sensors)) ∧
    (∀ s', s' ≠ sX0 →
      lookupA mContribX.sensor_map s' = lookupA mEmpty.sensor_map s' ∧
      ∀ t, memberAt mContribX.privatizers t s' ↔ memberAt mEmpty.privatizers t s') ∧
    lookupA (ManagerState.removeSensorM mContribX sX0).sensor_map sX0 = none :=
  have h := claim_C5_amended cfg3 mEmpty 128 sX0 measX 1 mContribX TrixelLevelChange.KEEP rfl
  ⟨h.1,
   h.2.1 (PrivState.mk0 cfg3 128) 32 (PrivState.mk0 cfg3 32) 0 0 rfl rfl (by decide)
     rfl rfl rfl (by decide),
   fun s' hs' => h.2.2.1 s' hs',
   (h.2.2.2 mContribX sX0).1⟩
